import Mathlib

/-! Shallow embedding of the mqtt_discoverystream integration, covering the
state publisher coroutine and the inbound MQTT command decoder from
custom_components/mqtt_discoverystream/__init__.py, with the constants of
const.py inlined. Publishes are modelled as records collected in order; the
process-lifetime publication registry is an explicit list threaded through
the publisher; Python exceptions (json.loads failure, KeyError, IndexError)
are modelled with Except. -/

namespace MqttDS

/-- JSON-like values: payload contents of MQTT publishes and of decoded
inbound messages. Numbers are modelled as rationals, json.dumps is modelled
by keeping the structured value as the payload. -/
inductive JVal where
  | str : String → JVal
  | num : Rat → JVal
  | bool : Bool → JVal
  | null : JVal
  | list : List JVal → JVal
  | obj : List (String × JVal) → JVal

/-- Python dict lookup d[k] restricted to string keys, returning none when
the key is absent. -/
def lookupField (k : String) : List (String × JVal) → Option JVal
  | [] => none
  | (k2, v) :: rest => if k = k2 then some v else lookupField k rest

/-- Python dict assignment d[k] = v: replace the value at the first
occurrence of the key, keeping its position, otherwise append. -/
def dictInsert (k : String) (v : JVal) : List (String × JVal) → List (String × JVal)
  | [] => [(k, v)]
  | (k2, v2) :: rest =>
    if k = k2 then (k, v) :: rest else (k2, v2) :: dictInsert k v rest

/-- Python del d[k]: drop the first binding of the key. -/
def dictErase (k : String) : List (String × JVal) → List (String × JVal)
  | [] => []
  | (k2, v2) :: rest => if k = k2 then rest else (k2, v2) :: dictErase k rest

/-- Python pattern d[dst] = attrs[src] guarded by src in attrs. -/
def addIfPresentAs (src dst : String) (attrs c : List (String × JVal)) :
    List (String × JVal) :=
  match lookupField src attrs with
  | some v => dictInsert dst v c
  | none => c

/-- Python pattern d[k] = attrs[k] guarded by k in attrs. -/
def addIfPresent (k : String) (attrs c : List (String × JVal)) :
    List (String × JVal) :=
  addIfPresentAs k k attrs c

/-- Python list indexing v[i] on a JSON value: IndexError when out of range,
TypeError when the value is not a list. -/
def getIdx (v : JVal) (i : Nat) : Except String JVal :=
  match v with
  | JVal.list l =>
    match l.get? i with
    | some x => Except.ok x
    | none => Except.error "IndexError"
  | _ => Except.error "TypeError: not a list"

/-- Python membership test for a string literal in a JSON list, as used by
the climate branch on preset_modes. String equality only, like Python ==. -/
def listContainsStr (s : String) (l : List JVal) : Bool :=
  l.any (fun v => match v with | JVal.str t => t == s | _ => false)

/-- Python list.remove for a string literal: drop the first occurrence. -/
def removeFirstStr (s : String) : List JVal → List JVal
  | [] => []
  | JVal.str t :: rest =>
    if t = s then rest else JVal.str t :: removeFirstStr s rest
  | v :: rest => v :: removeFirstStr s rest

/-- Python str.title: the first character of every alphabetic run is
uppercased, the following ones lowercased. -/
def titleCaseGo : Bool → List Char → List Char
  | _, [] => []
  | prevAlpha, c :: rest =>
    if c.isAlpha then
      (if prevAlpha then c.toLower else c.toUpper) :: titleCaseGo true rest
    else
      c :: titleCaseGo false rest

/-- Python str.title on a string. -/
def titleCase (s : String) : String :=
  String.mk (titleCaseGo false s.data)

/-- Python str.replace for a single-character pattern, as used with the dot
to slash and underscore to space replacements of the source: every occurrence
of the character is replaced. -/
def replaceChar (a b : Char) (s : String) : String :=
  String.mk (s.data.map (fun c => if c = a then b else c))

/-- Python str.split on a single-character separator, character-level. -/
def splitCharsOn (c : Char) : List Char → List (List Char)
  | [] => [[]]
  | x :: rest =>
    let r := splitCharsOn c rest
    if x = c then [] :: r
    else
      match r with
      | [] => [[x]]
      | h :: t => (x :: h) :: t

/-- List membership for strings, Python in on a list of entity ids. -/
def memStr (l : List String) (s : String) : Bool :=
  l.any (fun x => decide (x = s))

/-- One mqtt.async_publish call: topic, payload, qos and retain flag. -/
structure Pub where
  topic : String
  payload : JVal
  qos : Nat
  retain : Bool

/-- The new_state argument of the state publisher: the state string (None is
modelled as none), the attributes mapping and the two timestamps, the latter
already rendered by isoformat (none models a falsy timestamp). -/
structure Snapshot where
  state : Option String
  attributes : List (String × JVal)
  last_updated : Option String
  last_changed : Option String

/-- Device registry data resolved for an entity: the fields read by the
device-linkage block. Options model Python falsy values. -/
structure DevInfo where
  manufacturer : Option String
  model : Option String
  devname : Option String
  sw_version : Option String
  identifiers : List (String × String)
  connections : List (String × String)

/-- Configuration handed to async_setup after validation, plus the external
collaborator interfaces: the entity filter, the supported-features bitmask
lookup and the device registry lookup. base_topic and discovery_topic are
already normalized to end with a slash. -/
structure Config where
  base_topic : String
  discovery_topic : String
  publish_attributes : Bool
  publish_timestamps : Bool
  publish_discovery : Bool
  has_includes : Bool
  publish_filter : String → Bool
  supported_features : String → Nat
  device_info : String → Option DevInfo

/-- Topic root for one entity: base_topic plus the entity id with the dot
replaced by a slash, plus a trailing slash. -/
def mybase (cfg : Config) (entity_id : String) : String :=
  (cfg.base_topic ++ replaceChar '.' '/' entity_id) ++ "/"

/-- Discovery config topic for one entity under the discovery topic root. -/
def confTopic (cfg : Config) (entity_id : String) : String :=
  (cfg.discovery_topic ++ replaceChar '.' '/' entity_id) ++ "/config"

/-- Python entity_id.split(".")[0]. -/
def entDomain (entity_id : String) : String :=
  String.mk ((splitCharsOn '.' entity_id.data).headD [])

/-- Python entity_id.split(".")[1]. -/
def entObjectId (entity_id : String) : String :=
  String.mk (((splitCharsOn '.' entity_id.data).drop 1).headD [])

/-- Availability payload: offline when the state is unavailable, unknown or
absent, online otherwise (lines 323-327 and 333-337 of the source). -/
def availability_payload (s : Option String) : String :=
  if s = some "unavailable" ∨ s = some "unknown" ∨ s = none then "offline"
  else "online"

/-- Payload of a bare state publish: the state string itself. -/
def stateVal (s : Option String) : JVal :=
  match s with
  | some t => JVal.str t
  | none => JVal.null

/-- Color object of the light state payload, lines 305-315 of the source.
The xy branch assigns the key x twice, mirroring the double assignment of
lines 310-311 of the source. -/
def buildColor (attrs : List (String × JVal)) :
    Except String (List (String × JVal)) :=
  let r1 : Except String (List (String × JVal)) :=
    match lookupField "hs_color" attrs with
    | some v =>
      match getIdx v 0 with
      | Except.error e => Except.error e
      | Except.ok h =>
        match getIdx v 1 with
        | Except.error e => Except.error e
        | Except.ok s =>
          Except.ok (dictInsert "s" s (dictInsert "h" h []))
    | none => Except.ok []
  match r1 with
  | Except.error e => Except.error e
  | Except.ok c1 =>
    let r2 : Except String (List (String × JVal)) :=
      match lookupField "xy_color" attrs with
      | some v =>
        match getIdx v 0 with
        | Except.error e => Except.error e
        | Except.ok x0 =>
          match getIdx v 1 with
          | Except.error e => Except.error e
          | Except.ok x1 =>
            Except.ok (dictInsert "x" x1 (dictInsert "x" x0 c1))
      | none => Except.ok c1
    match r2 with
    | Except.error e => Except.error e
    | Except.ok c2 =>
      match lookupField "rgb_color" attrs with
      | some v =>
        match getIdx v 0 with
        | Except.error e => Except.error e
        | Except.ok r =>
          match getIdx v 1 with
          | Except.error e => Except.error e
          | Except.ok g =>
            match getIdx v 2 with
            | Except.error e => Except.error e
            | Except.ok b =>
              Except.ok (dictInsert "b" b (dictInsert "g" g
                (dictInsert "r" r c2)))
      | none => Except.ok c2

/-- JSON state payload for a light entity, lines 293-317 of the source. -/
def light_state_payload (snap : Snapshot) :
    Except String (List (String × JVal)) :=
  let p0 : List (String × JVal) :=
    [("state", JVal.str (if snap.state = some "on" then "ON" else "OFF"))]
  let p1 := addIfPresent "brightness" snap.attributes p0
  let p2 := addIfPresent "color_mode" snap.attributes p1
  let p3 := addIfPresent "color_temp" snap.attributes p2
  let p4 := addIfPresent "effect" snap.attributes p3
  match buildColor snap.attributes with
  | Except.error e => Except.error e
  | Except.ok color =>
    Except.ok (if color.isEmpty then p4 else dictInsert "color" (JVal.obj color) p4)

/-- State, availability and attributes publishes of one cycle, lines 291-347
of the source: the light branch emits a JSON state payload then availability;
the generic branch emits the bare state, availability, then the attributes
copy; with discovery disabled only the bare state is published. -/
def publish_step (cfg : Config) (entity_id : String) (snap : Snapshot) :
    Except String (List Pub) :=
  let base := mybase cfg entity_id
  if cfg.publish_discovery then
    if entDomain entity_id = "light" then
      match light_state_payload snap with
      | Except.error e => Except.error e
      | Except.ok p =>
        Except.ok [⟨base ++ "state", JVal.obj p, 1, true⟩,
          ⟨base ++ "availability", JVal.str (availability_payload snap.state), 1, true⟩]
    else
      Except.ok [⟨base ++ "state", stateVal snap.state, 1, true⟩,
        ⟨base ++ "availability", JVal.str (availability_payload snap.state), 1, true⟩,
        ⟨base ++ "attributes", JVal.obj snap.attributes, 1, true⟩]
  else
    Except.ok [⟨base ++ "state", stateVal snap.state, 1, true⟩]

/-- Python attrs[k] with the KeyError it raises when the key is absent. -/
def requireAttr (k : String) (snap : Snapshot) : Except String JVal :=
  match lookupField k snap.attributes with
  | some v => Except.ok v
  | none => Except.error ("KeyError: " ++ k)

/-- Device-linkage block, lines 270-282 of the source: only non-empty fields
are included, under the abbreviated keys. -/
def devFields (d : DevInfo) : List (String × JVal) :=
  let f : List (String × JVal) := []
  let f := match d.manufacturer with
    | some m => dictInsert "mf" (JVal.str m) f
    | none => f
  let f := match d.model with
    | some m => dictInsert "mdl" (JVal.str m) f
    | none => f
  let f := match d.devname with
    | some n => dictInsert "name" (JVal.str n) f
    | none => f
  let f := match d.sw_version with
    | some s => dictInsert "sw" (JVal.str s) f
    | none => f
  let f := if d.identifiers.isEmpty then f
    else dictInsert "ids"
      (JVal.list (d.identifiers.map (fun p => JVal.str p.2))) f
  if d.connections.isEmpty then f
  else dictInsert "cns"
    (JVal.list (d.connections.map (fun p => JVal.list [JVal.str p.1, JVal.str p.2]))) f

/-- Discovery-config construction, lines 187-262 of the source. The result
is some config when the Python flag publish_config ends up True, none when it
stays False; the returned snapshot reflects the in-place mutation that the
climate branch performs on the preset_modes attribute list (lines 234-236 of
the source remove the literal none from the list object stored in
new_state.attributes). -/
def build_config (cfg : Config) (entity_id : String) (snap : Snapshot) :
    Except String (Option (List (String × JVal)) × Snapshot) :=
  let base := mybase cfg entity_id
  let c0 : List (String × JVal) :=
    [("uniq_id", JVal.str ("mqtt_" ++ entity_id)),
     ("name", JVal.str (titleCase (replaceChar '_' ' ' (entObjectId entity_id)))),
     ("stat_t", JVal.str (base ++ "state")),
     ("json_attr_t", JVal.str (base ++ "attributes")),
     ("avty_t", JVal.str (base ++ "availability"))]
  let c0 := addIfPresentAs "device_class" "dev_cla" snap.attributes c0
  let c0 := addIfPresentAs "unit_of_measurement" "unit_of_meas" snap.attributes c0
  let c0 := addIfPresentAs "state_class" "stat_cla" snap.attributes c0
  if entDomain entity_id = "sensor" then
    if cfg.has_includes || (lookupField "device_class" snap.attributes).isSome then
      Except.ok (some c0, snap)
    else
      Except.ok (none, snap)
  else if entDomain entity_id = "binary_sensor" then
    if cfg.has_includes || (lookupField "device_class" snap.attributes).isSome then
      Except.ok (some (dictInsert "pl_on" (JVal.str "on")
        (dictInsert "pl_off" (JVal.str "off") c0)), snap)
    else
      Except.ok (none, snap)
  else if entDomain entity_id = "switch" then
    Except.ok (some (dictInsert "cmd_t" (JVal.str (base ++ "set"))
      (dictInsert "pl_on" (JVal.str "on")
        (dictInsert "pl_off" (JVal.str "off") c0))), snap)
  else if entDomain entity_id = "device_tracker" then
    Except.ok (some c0, snap)
  else if entDomain entity_id = "climate" then
    let c := dictInsert "current_temperature_topic" (JVal.str (base ++ "attributes")) c0
    let c := dictInsert "current_temperature_template"
      (JVal.str "\x7b\x7b value_json.current_temperature \x7d\x7d") c
    let c := addIfPresent "icon" snap.attributes c
    match requireAttr "max_temp" snap with
    | Except.error e => Except.error e
    | Except.ok maxT =>
      match requireAttr "min_temp" snap with
      | Except.error e => Except.error e
      | Except.ok minT =>
        match requireAttr "hvac_modes" snap with
        | Except.error e => Except.error e
        | Except.ok hvac =>
          let c := dictInsert "max_temp" maxT c
          let c := dictInsert "min_temp" minT c
          let c := dictInsert "modes" hvac c
          let c := dictInsert "mode_state_topic" (JVal.str (base ++ "state")) c
          match requireAttr "preset_modes" snap with
          | Except.error e => Except.error e
          | Except.ok pm =>
            match pm with
            | JVal.list pmList =>
              let pmList2 :=
                if listContainsStr "none" pmList then removeFirstStr "none" pmList
                else pmList
              let snap2 :=
                if listContainsStr "none" pmList then
                  { snap with attributes :=
                      dictInsert "preset_modes" (JVal.list pmList2) snap.attributes }
                else snap
              let c := dictInsert "preset_modes" (JVal.list pmList2) c
              let c := dictInsert "preset_mode_command_topic"
                (JVal.str (base ++ "preset_command")) c
              let c := dictInsert "preset_mode_state_topic"
                (JVal.str (base ++ "attributes")) c
              let c := dictInsert "preset_mode_value_template"
                (JVal.str "\x7b\x7b value_json.preset_mode \x7d\x7d") c
              let c := dictInsert "temperature_state_topic"
                (JVal.str (base ++ "attributes")) c
              let c := dictInsert "temperature_state_template"
                (JVal.str "\x7b\x7b value_json.temperature \x7d\x7d") c
              Except.ok (some c, snap2)
            | _ => Except.error "TypeError: preset_modes"
  else if entDomain entity_id = "light" then
    let c := dictErase "json_attr_t" c0
    let c := dictInsert "cmd_t" (JVal.str (base ++ "set_light")) c
    let c := dictInsert "schema" (JVal.str "json") c
    let sf := cfg.supported_features entity_id
    let c := if sf &&& 1 ≠ 0 then dictInsert "brightness" (JVal.bool true) c else c
    let c := if sf &&& 4 ≠ 0 then dictInsert "effect" (JVal.bool true) c else c
    let c :=
      match lookupField "supported_color_modes" snap.attributes with
      | some v => dictInsert "supported_color_modes" v
          (dictInsert "color_mode" (JVal.bool true) c)
      | none => c
    Except.ok (some c, snap)
  else
    Except.ok (none, snap)

/-- Discovery block of one cycle, lines 183-289 of the source: when discovery
is enabled and the entity is not yet in the conf_published registry, build
the domain config; when the domain rules accept it, attach the device block,
publish the config retained at qos 1 and append the entity to the registry. -/
def discovery_step (cfg : Config) (published : List String) (entity_id : String)
    (snap : Snapshot) :
    Except String (List Pub × List String × Snapshot) :=
  if cfg.publish_discovery && !(memStr published entity_id) then
    match build_config cfg entity_id snap with
    | Except.error e => Except.error e
    | Except.ok (some c, snap2) =>
      let c :=
        match cfg.device_info entity_id with
        | some dev => dictInsert "dev" (JVal.obj (devFields dev)) c
        | none => c
      Except.ok ([⟨confTopic cfg entity_id, JVal.obj c, 1, true⟩],
        published ++ [entity_id], snap2)
    | Except.ok (none, snap2) => Except.ok ([], published, snap2)
  else
    Except.ok ([], published, snap)

/-- Timestamp publishes, lines 164-172 of the source. -/
def tsPubs (cfg : Config) (base : String) (snap : Snapshot) : List Pub :=
  if cfg.publish_timestamps then
    (match snap.last_updated with
     | some t => [⟨base ++ "last_updated", JVal.str t, 1, true⟩]
     | none => []) ++
    (match snap.last_changed with
     | some t => [⟨base ++ "last_changed", JVal.str t, 1, true⟩]
     | none => [])
  else []

/-- Per-attribute publishes, lines 174-177 of the source. -/
def attrKeyPubs (cfg : Config) (base : String) (snap : Snapshot) : List Pub :=
  if cfg.publish_attributes then
    snap.attributes.map (fun kv => ⟨base ++ kv.1, kv.2, 1, true⟩)
  else []

/-- One run of the state publisher callback, lines 153-347 of the source:
drop null states and filtered entities, then publish timestamps, raw
attributes, the discovery block and the state payload set, in source order.
The returned snapshot reflects the in-place mutation the climate discovery
branch may perform; the publish step then reads the mutated snapshot, as the
Python closure does. -/
def state_publisher (cfg : Config) (published : List String) (entity_id : String)
    (new_state : Option Snapshot) :
    Except String (List Pub × List String × Option Snapshot) :=
  match new_state with
  | none => Except.ok ([], published, none)
  | some snap =>
    if cfg.publish_filter entity_id then
      let base := mybase cfg entity_id
      match discovery_step cfg published entity_id snap with
      | Except.error e => Except.error e
      | Except.ok (confPubs, published2, snap2) =>
        match publish_step cfg entity_id snap2 with
        | Except.error e => Except.error e
        | Except.ok statePubs =>
          Except.ok (tsPubs cfg base snap ++ attrKeyPubs cfg base snap
            ++ confPubs ++ statePubs, published2, some snap2)
    else
      Except.ok ([], published, some snap)

/-- Processing of a stream of state-change notifications in arrival order,
threading the conf_published registry, which is reset only by restart. -/
def run_trace (cfg : Config) (published : List String) :
    List (String × Option Snapshot) → Except String (List Pub × List String)
  | [] => Except.ok ([], published)
  | (e, s) :: rest =>
    match state_publisher cfg published e s with
    | Except.error err => Except.error err
    | Except.ok (ps, published2, _) =>
      match run_trace cfg published2 rest with
      | Except.error err => Except.error err
      | Except.ok (ps2, published3) => Except.ok (ps ++ ps2, published3)

/-- Domain eligibility for a discovery config, as computed by the
publish_config flag of lines 201-262 of the source. -/
def eligible (cfg : Config) (entity_id : String) (snap : Snapshot) : Bool :=
  if entDomain entity_id = "sensor" then
    cfg.has_includes || (lookupField "device_class" snap.attributes).isSome
  else if entDomain entity_id = "binary_sensor" then
    cfg.has_includes || (lookupField "device_class" snap.attributes).isSome
  else
    decide (entDomain entity_id = "switch") || decide (entDomain entity_id = "device_tracker")
      || decide (entDomain entity_id = "climate") || decide (entDomain entity_id = "light")

/-- A decoded service call dispatched by the command decoder: service domain,
service name and the data mapping. -/
structure ServiceCall where
  domain : String
  service : String
  data : List (String × JVal)

/-- Color translation of an inbound set_light payload, lines 122-138 of the
source: three independent if statements, one per representation, each raising
KeyError when its companion keys are missing. -/
def decode_color (cobj sp : List (String × JVal)) :
    Except String (List (String × JVal)) :=
  let r1 : Except String (List (String × JVal)) :=
    match lookupField "h" cobj with
    | some h =>
      match lookupField "s" cobj with
      | some s => Except.ok (dictInsert "hs_color" (JVal.list [h, s]) sp)
      | none => Except.error "KeyError: s"
    | none => Except.ok sp
  match r1 with
  | Except.error e => Except.error e
  | Except.ok sp1 =>
    let r2 : Except String (List (String × JVal)) :=
      match lookupField "x" cobj with
      | some x =>
        match lookupField "y" cobj with
        | some y => Except.ok (dictInsert "xy_color" (JVal.list [x, y]) sp1)
        | none => Except.error "KeyError: y"
      | none => Except.ok sp1
    match r2 with
    | Except.error e => Except.error e
    | Except.ok sp2 =>
      match lookupField "r" cobj with
      | some r =>
        match lookupField "g" cobj with
        | some g =>
          match lookupField "b" cobj with
          | some b =>
            Except.ok (dictInsert "rgb_color" (JVal.list [r, g, b]) sp2)
          | none => Except.error "KeyError: b"
        | none => Except.error "KeyError: g"
      | none => Except.ok sp2

/-- Body of the set_light branch for an already parsed JSON payload, lines
110-151 of the source: transition first, then the required state field, then
brightness, color_temp and the color object for state ON. Unrecognized state
literals are logged and dropped, missing required fields raise KeyError. -/
def handle_set_light (domain entity : String) (pj : JVal) :
    Except String (List ServiceCall) :=
  match pj with
  | JVal.obj fields =>
    let sp : List (String × JVal) :=
      [("entity_id", JVal.str (domain ++ "." ++ entity))]
    let sp := addIfPresent "transition" fields sp
    match lookupField "state" fields with
    | none => Except.error "KeyError: state"
    | some (JVal.str "ON") =>
      let sp := addIfPresent "brightness" fields sp
      let sp := addIfPresent "color_temp" fields sp
      (match lookupField "color" fields with
       | some (JVal.obj cobj) =>
         (match decode_color cobj sp with
          | Except.ok sp2 => Except.ok [⟨domain, "turn_on", sp2⟩]
          | Except.error e => Except.error e)
       | some _ => Except.error "TypeError: color"
       | none => Except.ok [⟨domain, "turn_on", sp⟩])
    | some (JVal.str "OFF") => Except.ok [⟨domain, "turn_off", sp⟩]
    | some _ => Except.ok []
  | _ => Except.error "TypeError: payload"

/-- Inbound message handler, lines 77-151 of the source. The topic is already
split into domain, entity and element segments; parse models json.loads,
returning none exactly when the payload is not valid JSON, in which case the
Python handler raises an uncaught JSONDecodeError. A set payload that is not
the on or off literal, and a set_light on a non-light domain, are logged and
dropped without dispatching. -/
def message_received (parse : String → Option JVal)
    (domain entity element payload : String) :
    Except String (List ServiceCall) :=
  let setCalls : List ServiceCall :=
    if element = "set" then
      if payload = "on" then
        [⟨domain, "turn_on", [("entity_id", JVal.str (domain ++ "." ++ entity))]⟩]
      else if payload = "off" then
        [⟨domain, "turn_off", [("entity_id", JVal.str (domain ++ "." ++ entity))]⟩]
      else []
    else []
  let lightRes : Except String (List ServiceCall) :=
    if element = "set_light" then
      if domain ≠ "light" then Except.ok []
      else
        match parse payload with
        | none => Except.error "JSONDecodeError"
        | some pj => handle_set_light domain entity pj
    else Except.ok []
  match lightRes with
  | Except.ok lightCalls => Except.ok (setCalls ++ lightCalls)
  | Except.error e => Except.error e

/-- Projection of the publish list of a successful publisher run. -/
def outPubs (r : Except String (List Pub × List String × Option Snapshot)) :
    Option (List Pub) :=
  match r with
  | Except.ok x => some x.1
  | Except.error _ => none

/-- Projection of the snapshot returned by a successful publisher run. -/
def outSnap (r : Except String (List Pub × List String × Option Snapshot)) :
    Option Snapshot :=
  match r with
  | Except.ok x => x.2.2
  | Except.error _ => none

/-- Concrete configuration used by concrete-input theorems: discovery on,
attribute and timestamp publishing off, no include filter, filter accepting
everything, no light features, no device registry entries. -/
def cfgA : Config := {
  base_topic := "ha/", discovery_topic := "disc/",
  publish_attributes := false, publish_timestamps := false,
  publish_discovery := true, has_includes := false,
  publish_filter := fun _ => true, supported_features := fun _ => 0,
  device_info := fun _ => none }

/-- Concrete configuration with discovery publishing disabled and attribute
publishing enabled. -/
def cfgB : Config :=
  { cfgA with publish_discovery := false, publish_attributes := true }

/-- Concrete configuration with discovery publishing disabled and the
attribute and timestamp flags off as well. -/
def cfgC : Config := { cfgA with publish_discovery := false }

/-- Light snapshot whose only color attribute is xy_color. -/
def snapXY : Snapshot := {
  state := some "on",
  attributes := [("xy_color", JVal.list [JVal.num 3, JVal.num 4])],
  last_updated := none, last_changed := none }

/-- Climate snapshot whose preset_modes list contains the literal none. -/
def snapClim : Snapshot := {
  state := some "heat",
  attributes := [("max_temp", JVal.num 30), ("min_temp", JVal.num 10),
    ("hvac_modes", JVal.list [JVal.str "heat", JVal.str "off"]),
    ("preset_modes", JVal.list [JVal.str "none", JVal.str "eco", JVal.str "away"])],
  last_updated := none, last_changed := none }

/-- The snapshot snapClim after the climate discovery branch has removed the
literal none from its preset_modes list in place. -/
def snapClimMut : Snapshot := {
  state := some "heat",
  attributes := [("max_temp", JVal.num 30), ("min_temp", JVal.num 10),
    ("hvac_modes", JVal.list [JVal.str "heat", JVal.str "off"]),
    ("preset_modes", JVal.list [JVal.str "eco", JVal.str "away"])],
  last_updated := none, last_changed := none }

/-- Sensor snapshot with one ordinary attribute and no device_class. -/
def snapFoo : Snapshot := {
  state := some "42",
  attributes := [("foo", JVal.str "bar")],
  last_updated := none, last_changed := none }

/-- Device-tracker snapshot with one attribute. -/
def snapDT : Snapshot := {
  state := some "home",
  attributes := [("battery", JVal.num 95)],
  last_updated := none, last_changed := none }

/-- Inbound set_light payload carrying both an HS and an XY color. -/
def pjC5 : JVal := JVal.obj [("state", JVal.str "ON"),
  ("color", JVal.obj [("h", JVal.num 1), ("s", JVal.num 2),
    ("x", JVal.num 3), ("y", JVal.num 4)])]

/-- Expected publish list of the C6 counterexample cycle. -/
def pubsC6 : List Pub :=
  [⟨"disc/device_tracker/phone/config",
    JVal.obj [("uniq_id", JVal.str "mqtt_device_tracker.phone"),
      ("name", JVal.str "Phone"),
      ("stat_t", JVal.str "ha/device_tracker/phone/state"),
      ("json_attr_t", JVal.str "ha/device_tracker/phone/attributes"),
      ("avty_t", JVal.str "ha/device_tracker/phone/availability")], 1, true⟩,
   ⟨"ha/device_tracker/phone/state", JVal.str "home", 1, true⟩,
   ⟨"ha/device_tracker/phone/availability", JVal.str "online", 1, true⟩,
   ⟨"ha/device_tracker/phone/attributes", JVal.obj [("battery", JVal.num 95)], 1, true⟩]

/-- Check that a notification carries no device_class attribute. -/
def lacksDeviceClass : Option Snapshot → Bool
  | some s => !(lookupField "device_class" s.attributes).isSome
  | none => true

/-- Projection of the publish list of a successful trace run. -/
def tracePubs (r : Except String (List Pub × List String)) : List Pub :=
  match r with
  | Except.ok x => x.1
  | Except.error _ => []

/-- Projection of the final registry of a successful trace run. -/
def traceReg (r : Except String (List Pub × List String)) : List String :=
  match r with
  | Except.ok x => x.2
  | Except.error _ => []

/-- Sensor snapshot carrying a device_class attribute. -/
def snapDev : Snapshot := {
  state := some "21",
  attributes := [("device_class", JVal.str "temperature")],
  last_updated := none, last_changed := none }

/-- Switch snapshot with no attributes. -/
def snapSw : Snapshot := {
  state := some "on", attributes := [],
  last_updated := none, last_changed := none }

/-- Snapshot whose state is the unavailable literal. -/
def snapUnavail : Snapshot := {
  state := some "unavailable", attributes := [],
  last_updated := none, last_changed := none }

/-- Color object carrying the HS and XY representations but no RGB. -/
def cobjHX : List (String × JVal) :=
  [("h", JVal.num 1), ("s", JVal.num 2), ("x", JVal.num 3), ("y", JVal.num 4)]

/-- Three-notification trace whose first entry is an eligible sensor seen for
the first time, followed by a repeat of it and a different switch entity. -/
def traceC1W : List (String × Option Snapshot) :=
  [("sensor.temp", some snapDev), ("sensor.temp", some snapDev),
   ("switch.sw", some snapSw)]

/-- Publishes of the traceC1W run. -/
def psC1W : List Pub := tracePubs (run_trace cfgA [] traceC1W)

/-- Final registry of the traceC1W run. -/
def regC1W : List String := traceReg (run_trace cfgA [] traceC1W)

/-- Trace of repeated sensor notifications lacking device_class, plus an
unrelated switch notification. -/
def traceC9W : List (String × Option Snapshot) :=
  [("sensor.temp", some snapFoo), ("sensor.temp", some snapFoo),
   ("switch.sw", some snapSw)]

/-- Publishes of the traceC9W run. -/
def psC9W : List Pub := tracePubs (run_trace cfgA [] traceC9W)

/-- Final registry of the traceC9W run. -/
def regC9W : List String := traceReg (run_trace cfgA [] traceC9W)

/-- C2: for a light whose state carries xy_color, the encoder writes both XY
coordinates to the single key x (the second assignment of source lines
310-311 overwrites the first), no y key is emitted, and decoding the emitted
color object as a set_light command raises KeyError on y, so the XY round
trip of the claim fails. -/
theorem C2_xy_roundtrip_bug :
    outPubs (state_publisher cfgA ["light.lamp"] "light.lamp" (some snapXY))
      = some [⟨"ha/light/lamp/state",
          JVal.obj [("state", JVal.str "ON"),
            ("color", JVal.obj [("x", JVal.num 4)])], 1, true⟩,
          ⟨"ha/light/lamp/availability", JVal.str "online", 1, true⟩]
    ∧ message_received
        (fun _ => some (JVal.obj [("state", JVal.str "ON"),
          ("color", JVal.obj [("x", JVal.num 4)])]))
        "light" "lamp" "set_light" "payload"
      = Except.error "KeyError: y" :=
  ⟨rfl, rfl⟩

/-- C3: processing the first climate notification with discovery enabled
mutates the snapshot in place, removing the literal none from its
preset_modes attribute list, so the snapshot is not left unchanged. -/
theorem C3_preset_modes_mutation :
    outSnap (state_publisher cfgA [] "climate.kitchen" (some snapClim))
      = some snapClimMut
    ∧ lookupField "preset_modes" snapClim.attributes
      = some (JVal.list [JVal.str "none", JVal.str "eco", JVal.str "away"])
    ∧ lookupField "preset_modes" snapClimMut.attributes
      = some (JVal.list [JVal.str "eco", JVal.str "away"])
    ∧ snapClimMut.attributes ≠ snapClim.attributes := by
  refine ⟨rfl, rfl, rfl, fun h => ?_⟩
  have h2 := congrArg (fun l => lookupField "preset_modes" l) h
  simp only [lookupField] at h2
  norm_num at h2
  have h3 := congrArg (fun v =>
    match v with | JVal.list l => l.length | _ => 0) h2
  simp at h3

/-- C4: a set_light message whose payload is not valid JSON makes the handler
raise an uncaught JSONDecodeError, and a JSON object payload missing the
required state field makes it raise an uncaught KeyError; neither is logged
and dropped as the claim requires. -/
theorem C4_set_light_decode_raises :
    message_received (fun _ => none) "light" "lamp" "set_light" "not json"
      = Except.error "JSONDecodeError"
    ∧ message_received (fun _ => some (JVal.obj [])) "light" "lamp" "set_light" "x"
      = Except.error "KeyError: state" :=
  ⟨rfl, rfl⟩

/-- C5 counterexample: a set_light payload carrying both HS and XY color
sub-fields is decoded into a service call that forwards both hs_color and
xy_color, contradicting the claim that exactly one variant is forwarded with
the others dropped. -/
theorem C5_counterexample :
    message_received (fun _ => some pjC5) "light" "lamp" "set_light" "p"
      = Except.ok [⟨"light", "turn_on",
          [("entity_id", JVal.str "light.lamp"),
           ("hs_color", JVal.list [JVal.num 1, JVal.num 2]),
           ("xy_color", JVal.list [JVal.num 3, JVal.num 4])]⟩]
    ∧ lookupField "xy_color"
        [("entity_id", JVal.str "light.lamp"),
         ("hs_color", JVal.list [JVal.num 1, JVal.num 2]),
         ("xy_color", JVal.list [JVal.num 3, JVal.num 4])]
      = some (JVal.list [JVal.num 3, JVal.num 4]) :=
  ⟨rfl, rfl⟩

/-- C6 counterexample: a device_tracker cycle with discovery enabled emits
its attributes payload at index 3, after the availability payload at index 2,
contradicting the claim that no attributes payload follows availability. -/
theorem C6_counterexample :
    outPubs (state_publisher cfgA [] "device_tracker.phone" (some snapDT))
      = some pubsC6
    ∧ pubsC6.get? 2
      = some ⟨"ha/device_tracker/phone/availability", JVal.str "online", 1, true⟩
    ∧ pubsC6.get? 3
      = some ⟨"ha/device_tracker/phone/attributes",
          JVal.obj [("battery", JVal.num 95)], 1, true⟩ :=
  ⟨rfl, rfl, rfl⟩

/-- C7 counterexample: with discovery publishing disabled but attribute
publishing enabled, a cycle publishes a per-attribute payload before the bare
state payload, so more than a single bare state payload is published. -/
theorem C7_counterexample :
    outPubs (state_publisher cfgB [] "sensor.x" (some snapFoo))
      = some [⟨"ha/sensor/x/foo", JVal.str "bar", 1, true⟩,
              ⟨"ha/sensor/x/state", JVal.str "42", 1, true⟩] :=
  rfl

/-- Lookup after inserting the same key yields the inserted value. -/
theorem lookupField_dictInsert_eq (k : String) (v : JVal) (l : List (String × JVal)) :
    lookupField k (dictInsert k v l) = some v := by
  induction l with
  | nil => simp [dictInsert, lookupField]
  | cons hd tl ih =>
    obtain ⟨k2, v2⟩ := hd
    by_cases hk : k = k2
    · simp [dictInsert, lookupField, hk]
    · simp [dictInsert, lookupField, hk, ih]

/-- Lookup is unchanged by inserting a different key. -/
theorem lookupField_dictInsert_ne (k k2 : String) (v : JVal) (l : List (String × JVal))
    (h : k ≠ k2) :
    lookupField k (dictInsert k2 v l) = lookupField k l := by
  induction l with
  | nil => simp [dictInsert, lookupField, h]
  | cons hd tl ih =>
    obtain ⟨k3, v3⟩ := hd
    by_cases hk : k2 = k3
    · subst hk
      simp [dictInsert, lookupField, h]
    · by_cases hk2 : k = k3 <;> simp [dictInsert, lookupField, hk, hk2, ih]

/-- Lookup is unchanged by a conditional insert of a different key. -/
theorem lookupField_addIfPresent_ne (k k2 : String) (attrs l : List (String × JVal))
    (h : k ≠ k2) :
    lookupField k (addIfPresent k2 attrs l) = lookupField k l := by
  cases hl : lookupField k2 attrs with
  | none => simp [addIfPresent, addIfPresentAs, hl]
  | some v => simp [addIfPresent, addIfPresentAs, hl, lookupField_dictInsert_ne k k2 v l h]

/-- Characterization of the color decoding for any combination of present
representations: each representation whose tag key is present in the color
object (together with its companion keys) is forwarded into the service
payload, and each representation whose tag key is absent is not forwarded.
The three Option parameters describe which representations the color object
carries. -/
theorem decode_color_spec (cobj sp : List (String × JVal))
    (shs sxy : Option (JVal × JVal)) (srgb : Option (JVal × JVal × JVal))
    (hs0 : lookupField "hs_color" sp = none)
    (hx0 : lookupField "xy_color" sp = none)
    (hr0 : lookupField "rgb_color" sp = none)
    (hhs : match shs with
      | none => lookupField "h" cobj = none
      | some p => lookupField "h" cobj = some p.1 ∧ lookupField "s" cobj = some p.2)
    (hxy : match sxy with
      | none => lookupField "x" cobj = none
      | some p => lookupField "x" cobj = some p.1 ∧ lookupField "y" cobj = some p.2)
    (hrgb : match srgb with
      | none => lookupField "r" cobj = none
      | some p => lookupField "r" cobj = some p.1 ∧ lookupField "g" cobj = some p.2.1
          ∧ lookupField "b" cobj = some p.2.2) :
    ∃ sp2, decode_color cobj sp = Except.ok sp2
      ∧ lookupField "hs_color" sp2 = shs.map (fun p => JVal.list [p.1, p.2])
      ∧ lookupField "xy_color" sp2 = sxy.map (fun p => JVal.list [p.1, p.2])
      ∧ lookupField "rgb_color" sp2
          = srgb.map (fun p => JVal.list [p.1, p.2.1, p.2.2]) := by
  cases shs with
  | none =>
    have hh1 : lookupField "h" cobj = none := hhs
    cases sxy with
    | none =>
      have hx1 : lookupField "x" cobj = none := hxy
      cases srgb with
      | none =>
        have hr1 : lookupField "r" cobj = none := hrgb
        refine ⟨sp, ?_, hs0, hx0, hr0⟩
        unfold decode_color
        simp only [hh1, hx1, hr1]
      | some prgb =>
        obtain ⟨hr1, hg1, hb1⟩ := hrgb
        refine ⟨dictInsert "rgb_color" (JVal.list [prgb.1, prgb.2.1, prgb.2.2]) sp,
          ?_, ?_, ?_, ?_⟩
        · unfold decode_color
          simp only [hh1, hx1, hr1, hg1, hb1]
        · rw [lookupField_dictInsert_ne _ _ _ _ (by decide)]
          exact hs0
        · rw [lookupField_dictInsert_ne _ _ _ _ (by decide)]
          exact hx0
        · rw [lookupField_dictInsert_eq]
          rfl
    | some pxy =>
      obtain ⟨hx1, hy1⟩ := hxy
      cases srgb with
      | none =>
        have hr1 : lookupField "r" cobj = none := hrgb
        refine ⟨dictInsert "xy_color" (JVal.list [pxy.1, pxy.2]) sp, ?_, ?_, ?_, ?_⟩
        · unfold decode_color
          simp only [hh1, hx1, hy1, hr1]
        · rw [lookupField_dictInsert_ne _ _ _ _ (by decide)]
          exact hs0
        · rw [lookupField_dictInsert_eq]
          rfl
        · rw [lookupField_dictInsert_ne _ _ _ _ (by decide)]
          exact hr0
      | some prgb =>
        obtain ⟨hr1, hg1, hb1⟩ := hrgb
        refine ⟨dictInsert "rgb_color" (JVal.list [prgb.1, prgb.2.1, prgb.2.2])
          (dictInsert "xy_color" (JVal.list [pxy.1, pxy.2]) sp), ?_, ?_, ?_, ?_⟩
        · unfold decode_color
          simp only [hh1, hx1, hy1, hr1, hg1, hb1]
        · rw [lookupField_dictInsert_ne _ _ _ _ (by decide),
            lookupField_dictInsert_ne _ _ _ _ (by decide)]
          exact hs0
        · rw [lookupField_dictInsert_ne _ _ _ _ (by decide), lookupField_dictInsert_eq]
          rfl
        · rw [lookupField_dictInsert_eq]
          rfl
  | some phs =>
    obtain ⟨hh1, hss1⟩ := hhs
    cases sxy with
    | none =>
      have hx1 : lookupField "x" cobj = none := hxy
      cases srgb with
      | none =>
        have hr1 : lookupField "r" cobj = none := hrgb
        refine ⟨dictInsert "hs_color" (JVal.list [phs.1, phs.2]) sp, ?_, ?_, ?_, ?_⟩
        · unfold decode_color
          simp only [hh1, hss1, hx1, hr1]
        · rw [lookupField_dictInsert_eq]
          rfl
        · rw [lookupField_dictInsert_ne _ _ _ _ (by decide)]
          exact hx0
        · rw [lookupField_dictInsert_ne _ _ _ _ (by decide)]
          exact hr0
      | some prgb =>
        obtain ⟨hr1, hg1, hb1⟩ := hrgb
        refine ⟨dictInsert "rgb_color" (JVal.list [prgb.1, prgb.2.1, prgb.2.2])
          (dictInsert "hs_color" (JVal.list [phs.1, phs.2]) sp), ?_, ?_, ?_, ?_⟩
        · unfold decode_color
          simp only [hh1, hss1, hx1, hr1, hg1, hb1]
        · rw [lookupField_dictInsert_ne _ _ _ _ (by decide), lookupField_dictInsert_eq]
          rfl
        · rw [lookupField_dictInsert_ne _ _ _ _ (by decide),
            lookupField_dictInsert_ne _ _ _ _ (by decide)]
          exact hx0
        · rw [lookupField_dictInsert_eq]
          rfl
    | some pxy =>
      obtain ⟨hx1, hy1⟩ := hxy
      cases srgb with
      | none =>
        have hr1 : lookupField "r" cobj = none := hrgb
        refine ⟨dictInsert "xy_color" (JVal.list [pxy.1, pxy.2])
          (dictInsert "hs_color" (JVal.list [phs.1, phs.2]) sp), ?_, ?_, ?_, ?_⟩
        · unfold decode_color
          simp only [hh1, hss1, hx1, hy1, hr1]
        · rw [lookupField_dictInsert_ne _ _ _ _ (by decide), lookupField_dictInsert_eq]
          rfl
        · rw [lookupField_dictInsert_eq]
          rfl
        · rw [lookupField_dictInsert_ne _ _ _ _ (by decide),
            lookupField_dictInsert_ne _ _ _ _ (by decide)]
          exact hr0
      | some prgb =>
        obtain ⟨hr1, hg1, hb1⟩ := hrgb
        refine ⟨dictInsert "rgb_color" (JVal.list [prgb.1, prgb.2.1, prgb.2.2])
          (dictInsert "xy_color" (JVal.list [pxy.1, pxy.2])
            (dictInsert "hs_color" (JVal.list [phs.1, phs.2]) sp)), ?_, ?_, ?_, ?_⟩
        · unfold decode_color
          simp only [hh1, hss1, hx1, hy1, hr1, hg1, hb1]
        · rw [lookupField_dictInsert_ne _ _ _ _ (by decide),
            lookupField_dictInsert_ne _ _ _ _ (by decide), lookupField_dictInsert_eq]
          rfl
        · rw [lookupField_dictInsert_ne _ _ _ _ (by decide), lookupField_dictInsert_eq]
          rfl
        · rw [lookupField_dictInsert_eq]
          rfl

/-- C5 amended: a set_light payload with state ON is decoded into one turn_on
call whose data forwards one entry per color representation present in the
color object — hs_color when the h tag is present, xy_color when the x tag is
present, rgb_color when the r tag is present — and forwards nothing for a
representation whose tag is absent, whatever combination is present. -/
theorem C5_amended (ent pl : String) (cobj : List (String × JVal))
    (shs sxy : Option (JVal × JVal)) (srgb : Option (JVal × JVal × JVal))
    (hhs : match shs with
      | none => lookupField "h" cobj = none
      | some p => lookupField "h" cobj = some p.1 ∧ lookupField "s" cobj = some p.2)
    (hxy : match sxy with
      | none => lookupField "x" cobj = none
      | some p => lookupField "x" cobj = some p.1 ∧ lookupField "y" cobj = some p.2)
    (hrgb : match srgb with
      | none => lookupField "r" cobj = none
      | some p => lookupField "r" cobj = some p.1 ∧ lookupField "g" cobj = some p.2.1
          ∧ lookupField "b" cobj = some p.2.2) :
    ∃ sp, message_received
        (fun _ => some (JVal.obj [("state", JVal.str "ON"), ("color", JVal.obj cobj)]))
        "light" ent "set_light" pl
      = Except.ok [⟨"light", "turn_on", sp⟩]
      ∧ lookupField "hs_color" sp = shs.map (fun p => JVal.list [p.1, p.2])
      ∧ lookupField "xy_color" sp = sxy.map (fun p => JVal.list [p.1, p.2])
      ∧ lookupField "rgb_color" sp
          = srgb.map (fun p => JVal.list [p.1, p.2.1, p.2.2]) := by
  obtain ⟨sp2, hdc, l1, l2, l3⟩ := decode_color_spec cobj
    [("entity_id", JVal.str ("light" ++ "." ++ ent))] shs sxy srgb
    rfl rfl rfl hhs hxy hrgb
  refine ⟨sp2, ?_, l1, l2, l3⟩
  have e1 : message_received
      (fun _ => some (JVal.obj [("state", JVal.str "ON"), ("color", JVal.obj cobj)]))
      "light" ent "set_light" pl
    = (match (match decode_color cobj
          [("entity_id", JVal.str ("light" ++ "." ++ ent))] with
         | Except.ok sp2 => Except.ok [⟨"light", "turn_on", sp2⟩]
         | Except.error e => Except.error e) with
       | Except.ok lc => Except.ok lc
       | Except.error e => Except.error e) := rfl
  rw [e1, hdc]

/-- Witness for C5 amended at a concrete payload carrying the HS and XY
representations but no RGB: both present ones are forwarded, the absent one
is not. -/
theorem C5_witness :
    ∃ sp, message_received
        (fun _ => some (JVal.obj [("state", JVal.str "ON"), ("color", JVal.obj cobjHX)]))
        "light" "lamp" "set_light" "p"
      = Except.ok [⟨"light", "turn_on", sp⟩]
      ∧ lookupField "hs_color" sp = some (JVal.list [JVal.num 1, JVal.num 2])
      ∧ lookupField "xy_color" sp = some (JVal.list [JVal.num 3, JVal.num 4])
      ∧ lookupField "rgb_color" sp = none :=
  C5_amended "lamp" "p" cobjHX (some (JVal.num 1, JVal.num 2))
    (some (JVal.num 3, JVal.num 4)) none ⟨rfl, rfl⟩ ⟨rfl, rfl⟩ rfl

/-- Data of an appended string is the appended data. -/
theorem strData_append (a b : String) : (a ++ b).data = a.data ++ b.data := rfl

/-- Two appends with non-empty suffixes whose last characters differ are
different strings, whatever the left parts are. -/
theorem append_ne_of_last_ne (a b s t : String) (hs : s.data ≠ []) (ht : t.data ≠ [])
    (hlast : s.data.getLast? ≠ t.data.getLast?) : a ++ s ≠ b ++ t := by
  intro he
  have hd : (a ++ s).data = (b ++ t).data := congrArg String.data he
  rw [strData_append, strData_append] at hd
  have h1 := congrArg List.getLast? hd
  rw [List.getLast?_append, List.getLast?_append] at h1
  obtain ⟨cs, hcs⟩ := Option.isSome_iff_exists.mp (List.getLast?_isSome.mpr hs)
  obtain ⟨ct, hct⟩ := Option.isSome_iff_exists.mp (List.getLast?_isSome.mpr ht)
  rw [hcs, hct] at h1
  simp only [Option.or_some] at h1
  exact hlast (by rw [hcs, hct, h1])

/-- Right cancellation for string append. -/
theorem str_append_right_cancel (a b s : String) (h : a ++ s = b ++ s) : a = b := by
  have hd := congrArg String.data h
  rw [strData_append, strData_append] at hd
  exact String.ext (List.append_cancel_right hd)

/-- Equation for the state publisher when the filter accepts the entity. -/
theorem state_publisher_some (cfg : Config) (P : List String) (e : String)
    (snap : Snapshot) (hf : cfg.publish_filter e = true) :
    state_publisher cfg P e (some snap) =
      (match discovery_step cfg P e snap with
       | Except.error err => Except.error err
       | Except.ok (cp, P2, snap2) =>
         match publish_step cfg e snap2 with
         | Except.error err => Except.error err
         | Except.ok sp =>
           Except.ok (tsPubs cfg (mybase cfg e) snap
             ++ attrKeyPubs cfg (mybase cfg e) snap ++ cp ++ sp, P2, some snap2)) := by
  unfold state_publisher
  rw [hf]
  rfl

/-- Inversion of a successful publisher cycle with the filter accepting. -/
theorem sp_some_inversion (cfg : Config) (P : List String) (e : String)
    (snap : Snapshot) (ps : List Pub) (P2 : List String) (s2 : Option Snapshot)
    (hf : cfg.publish_filter e = true)
    (h : state_publisher cfg P e (some snap) = Except.ok (ps, P2, s2)) :
    ∃ cp snap2 sp, discovery_step cfg P e snap = Except.ok (cp, P2, snap2)
      ∧ publish_step cfg e snap2 = Except.ok sp
      ∧ ps = tsPubs cfg (mybase cfg e) snap ++ attrKeyPubs cfg (mybase cfg e) snap
          ++ cp ++ sp
      ∧ s2 = some snap2 := by
  rw [state_publisher_some cfg P e snap hf] at h
  split at h
  · simp at h
  · rename_i cp P2' snap2 hds
    split at h
    · simp at h
    · rename_i sp hps
      simp only [Except.ok.injEq, Prod.mk.injEq] at h
      obtain ⟨hps', hP2, hs2⟩ := h
      exact ⟨cp, snap2, sp, hP2 ▸ hds, hps, hps'.symm, hs2.symm⟩

/-- Equation for the discovery step when the guard is off: nothing published,
registry unchanged, snapshot untouched. -/
theorem discovery_step_skip (cfg : Config) (P : List String) (e : String)
    (snap : Snapshot) (hg : (cfg.publish_discovery && !(memStr P e)) = false) :
    discovery_step cfg P e snap = Except.ok ([], P, snap) := by
  unfold discovery_step
  rw [hg]
  rfl

/-- Equation for the discovery step when the guard is on. -/
theorem discovery_step_go (cfg : Config) (P : List String) (e : String)
    (snap : Snapshot) (hg : (cfg.publish_discovery && !(memStr P e)) = true) :
    discovery_step cfg P e snap =
      (match build_config cfg e snap with
       | Except.error err => Except.error err
       | Except.ok (some c, snap2) =>
         let c :=
           match cfg.device_info e with
           | some dev => dictInsert "dev" (JVal.obj (devFields dev)) c
           | none => c
         Except.ok ([⟨confTopic cfg e, JVal.obj c, 1, true⟩], P ++ [e], snap2)
       | Except.ok (none, snap2) => Except.ok ([], P, snap2)) := by
  unfold discovery_step
  rw [hg]
  rfl

/-- Inversion of a successful config build: the snapshot keeps its state
(only the climate branch touches the snapshot, and only its attributes), and
a config document is produced exactly when the domain eligibility rules of
the publish_config flag accept the entity. -/
theorem build_config_inv (cfg : Config) (e : String) (snap : Snapshot)
    (o : Option (List (String × JVal))) (snap2 : Snapshot)
    (h : build_config cfg e snap = Except.ok (o, snap2)) :
    snap2.state = snap.state ∧ o.isSome = eligible cfg e snap := by
  unfold build_config at h
  unfold eligible
  by_cases h1 : entDomain e = "sensor"
  · rw [if_pos h1] at h
    rw [if_pos h1]
    by_cases hc : (cfg.has_includes || (lookupField "device_class" snap.attributes).isSome) = true
    · rw [if_pos hc] at h
      simp only [Except.ok.injEq, Prod.mk.injEq] at h
      obtain ⟨ho, hs⟩ := h
      exact ⟨by rw [← hs], by rw [← ho, hc]; rfl⟩
    · rw [if_neg hc] at h
      simp only [Except.ok.injEq, Prod.mk.injEq] at h
      obtain ⟨ho, hs⟩ := h
      refine ⟨by rw [← hs], ?_⟩
      rw [← ho]
      simp only [Bool.not_eq_true] at hc
      rw [hc]
      rfl
  · rw [if_neg h1] at h
    rw [if_neg h1]
    by_cases h2 : entDomain e = "binary_sensor"
    · rw [if_pos h2] at h
      rw [if_pos h2]
      by_cases hc : (cfg.has_includes || (lookupField "device_class" snap.attributes).isSome) = true
      · rw [if_pos hc] at h
        simp only [Except.ok.injEq, Prod.mk.injEq] at h
        obtain ⟨ho, hs⟩ := h
        exact ⟨by rw [← hs], by rw [← ho, hc]; rfl⟩
      · rw [if_neg hc] at h
        simp only [Except.ok.injEq, Prod.mk.injEq] at h
        obtain ⟨ho, hs⟩ := h
        refine ⟨by rw [← hs], ?_⟩
        rw [← ho]
        simp only [Bool.not_eq_true] at hc
        rw [hc]
        rfl
    · rw [if_neg h2] at h
      rw [if_neg h2]
      by_cases h3 : entDomain e = "switch"
      · rw [if_pos h3] at h
        simp only [Except.ok.injEq, Prod.mk.injEq] at h
        obtain ⟨ho, hs⟩ := h
        exact ⟨by rw [← hs], by rw [← ho]; simp [h3]⟩
      · rw [if_neg h3] at h
        by_cases h4 : entDomain e = "device_tracker"
        · rw [if_pos h4] at h
          simp only [Except.ok.injEq, Prod.mk.injEq] at h
          obtain ⟨ho, hs⟩ := h
          exact ⟨by rw [← hs], by rw [← ho]; simp [h4]⟩
        · rw [if_neg h4] at h
          by_cases h5 : entDomain e = "climate"
          · rw [if_pos h5] at h
            split at h
            · simp at h
            · split at h
              · simp at h
              · split at h
                · simp at h
                · split at h
                  · simp at h
                  · split at h
                    · simp only [Except.ok.injEq, Prod.mk.injEq] at h
                      obtain ⟨ho, hs⟩ := h
                      refine ⟨?_, by rw [← ho]; simp [h5]⟩
                      rw [← hs]
                      split <;> rfl
                    · simp at h
          · rw [if_neg h5] at h
            by_cases h6 : entDomain e = "light"
            · rw [if_pos h6] at h
              simp only [Except.ok.injEq, Prod.mk.injEq] at h
              obtain ⟨ho, hs⟩ := h
              exact ⟨by rw [← hs], by rw [← ho]; simp [h6]⟩
            · rw [if_neg h6] at h
              simp only [Except.ok.injEq, Prod.mk.injEq] at h
              obtain ⟨ho, hs⟩ := h
              refine ⟨by rw [← hs], ?_⟩
              rw [← ho]
              simp [h3, h4, h5, h6]

/-- The config builder never changes the state of the snapshot. -/
theorem build_config_state (cfg : Config) (e : String) (snap : Snapshot)
    (o : Option (List (String × JVal))) (snap2 : Snapshot)
    (h : build_config cfg e snap = Except.ok (o, snap2)) :
    snap2.state = snap.state :=
  (build_config_inv cfg e snap o snap2 h).1

/-- Inversion of a successful discovery step: either nothing was published
and the registry is unchanged, or exactly one retained config publish on the
config topic happened, the entity was not yet registered, discovery is on and
the entity was appended to the registry. -/
theorem discovery_step_inv (cfg : Config) (P : List String) (e : String)
    (snap : Snapshot) (cp : List Pub) (P2 : List String) (snap2 : Snapshot)
    (h : discovery_step cfg P e snap = Except.ok (cp, P2, snap2)) :
    (cp = [] ∧ P2 = P) ∨
    (∃ c, cp = [⟨confTopic cfg e, JVal.obj c, 1, true⟩] ∧ P2 = P ++ [e]
      ∧ memStr P e = false ∧ cfg.publish_discovery = true
      ∧ eligible cfg e snap = true) := by
  by_cases hg : (cfg.publish_discovery && !(memStr P e)) = true
  · rw [discovery_step_go cfg P e snap hg] at h
    have hflags := hg
    simp only [Bool.and_eq_true, Bool.not_eq_true'] at hflags
    cases hbc : build_config cfg e snap with
    | error err => rw [hbc] at h; simp at h
    | ok pr =>
      obtain ⟨o, snap2'⟩ := pr
      rw [hbc] at h
      cases o with
      | none =>
        simp only [Except.ok.injEq, Prod.mk.injEq] at h
        exact Or.inl ⟨h.1.symm, h.2.1.symm⟩
      | some c =>
        simp only [Except.ok.injEq, Prod.mk.injEq] at h
        have hel := (build_config_inv cfg e snap (some c) _ hbc).2
        exact Or.inr ⟨(match cfg.device_info e with
          | some dev => dictInsert "dev" (JVal.obj (devFields dev)) c
          | none => c), h.1.symm, h.2.1.symm, hflags.2, hflags.1, hel.symm⟩
  · have hg' : (cfg.publish_discovery && !(memStr P e)) = false := by
      simpa using hg
    rw [discovery_step_skip cfg P e snap hg'] at h
    simp only [Except.ok.injEq, Prod.mk.injEq] at h
    exact Or.inl ⟨h.1.symm, h.2.1.symm⟩

/-- Equation for the publish step with discovery disabled: one bare state
publish only. -/
theorem publish_step_nodisc (cfg : Config) (e : String) (snap : Snapshot)
    (hd : cfg.publish_discovery = false) :
    publish_step cfg e snap
      = Except.ok [⟨mybase cfg e ++ "state", stateVal snap.state, 1, true⟩] := by
  unfold publish_step
  rw [hd]
  rfl

/-- Equation for the publish step with discovery enabled. -/
theorem publish_step_disc (cfg : Config) (e : String) (snap : Snapshot)
    (hd : cfg.publish_discovery = true) :
    publish_step cfg e snap =
      (if entDomain e = "light" then
        match light_state_payload snap with
        | Except.error err => Except.error err
        | Except.ok p =>
          Except.ok [⟨mybase cfg e ++ "state", JVal.obj p, 1, true⟩,
            ⟨mybase cfg e ++ "availability",
              JVal.str (availability_payload snap.state), 1, true⟩]
       else
        Except.ok [⟨mybase cfg e ++ "state", stateVal snap.state, 1, true⟩,
          ⟨mybase cfg e ++ "availability",
            JVal.str (availability_payload snap.state), 1, true⟩,
          ⟨mybase cfg e ++ "attributes", JVal.obj snap.attributes, 1, true⟩]) := by
  unfold publish_step
  rw [hd]
  rfl

/-- With discovery enabled, every successful publish step starts with the
state publish followed directly by the availability publish, and the rest is
empty for lights or the single attributes publish otherwise. -/
theorem publish_step_disc_shape (cfg : Config) (e : String) (snap : Snapshot)
    (l : List Pub) (hd : cfg.publish_discovery = true)
    (h : publish_step cfg e snap = Except.ok l) :
    ∃ v rest, l = ⟨mybase cfg e ++ "state", v, 1, true⟩ ::
        ⟨mybase cfg e ++ "availability",
          JVal.str (availability_payload snap.state), 1, true⟩ :: rest
      ∧ (rest = []
         ∨ rest = [⟨mybase cfg e ++ "attributes", JVal.obj snap.attributes, 1, true⟩]) := by
  rw [publish_step_disc cfg e snap hd] at h
  split at h
  · split at h
    · simp at h
    · rename_i p hp
      simp only [Except.ok.injEq] at h
      exact ⟨JVal.obj p, [], by rw [← h], Or.inl rfl⟩
  · simp only [Except.ok.injEq] at h
    exact ⟨stateVal snap.state,
      [⟨mybase cfg e ++ "attributes", JVal.obj snap.attributes, 1, true⟩],
      by rw [← h], Or.inr rfl⟩

/-- Inversion of a successful light publish step. -/
theorem publish_step_light_inv (cfg : Config) (e : String) (snap : Snapshot)
    (l : List Pub) (hd : cfg.publish_discovery = true)
    (hl : entDomain e = "light") (h : publish_step cfg e snap = Except.ok l) :
    ∃ p, light_state_payload snap = Except.ok p
      ∧ l = [⟨mybase cfg e ++ "state", JVal.obj p, 1, true⟩,
             ⟨mybase cfg e ++ "availability",
               JVal.str (availability_payload snap.state), 1, true⟩] := by
  rw [publish_step_disc cfg e snap hd, if_pos hl] at h
  split at h
  · simp at h
  · rename_i p hp
    simp only [Except.ok.injEq] at h
    exact ⟨p, hp, h.symm⟩

/-- Equation for the publish step with discovery enabled for a non-light
domain. -/
theorem publish_step_other_eq (cfg : Config) (e : String) (snap : Snapshot)
    (hd : cfg.publish_discovery = true) (hl : ¬ entDomain e = "light") :
    publish_step cfg e snap =
      Except.ok [⟨mybase cfg e ++ "state", stateVal snap.state, 1, true⟩,
        ⟨mybase cfg e ++ "availability",
          JVal.str (availability_payload snap.state), 1, true⟩,
        ⟨mybase cfg e ++ "attributes", JVal.obj snap.attributes, 1, true⟩] := by
  rw [publish_step_disc cfg e snap hd, if_neg hl]

/-- Equation for the light state payload when the color build fails. -/
theorem light_state_payload_err (snap : Snapshot) (err : String)
    (hbc : buildColor snap.attributes = Except.error err) :
    light_state_payload snap = Except.error err := by
  unfold light_state_payload
  rw [hbc]

/-- Equation for the light state payload when the color build succeeds. -/
theorem light_state_payload_eq (snap : Snapshot) (color : List (String × JVal))
    (hbc : buildColor snap.attributes = Except.ok color) :
    light_state_payload snap = Except.ok
      (if color.isEmpty then
        addIfPresent "effect" snap.attributes
          (addIfPresent "color_temp" snap.attributes
            (addIfPresent "color_mode" snap.attributes
              (addIfPresent "brightness" snap.attributes
                [("state", JVal.str (if snap.state = some "on" then "ON" else "OFF"))])))
       else
        dictInsert "color" (JVal.obj color)
          (addIfPresent "effect" snap.attributes
            (addIfPresent "color_temp" snap.attributes
              (addIfPresent "color_mode" snap.attributes
                (addIfPresent "brightness" snap.attributes
                  [("state", JVal.str (if snap.state = some "on" then "ON" else "OFF"))]))))) := by
  unfold light_state_payload
  rw [hbc]

/-- The state field of the light JSON payload is ON exactly for the on state
and OFF otherwise. -/
theorem light_state_payload_state (snap : Snapshot) (p : List (String × JVal))
    (h : light_state_payload snap = Except.ok p) :
    lookupField "state" p
      = some (JVal.str (if snap.state = some "on" then "ON" else "OFF")) := by
  cases hbc : buildColor snap.attributes with
  | error err => rw [light_state_payload_err snap err hbc] at h; simp at h
  | ok color =>
    rw [light_state_payload_eq snap color hbc] at h
    simp only [Except.ok.injEq] at h
    rw [← h]
    by_cases hce : color.isEmpty
    · rw [if_pos hce]
      rw [lookupField_addIfPresent_ne _ _ _ _ (by decide),
        lookupField_addIfPresent_ne _ _ _ _ (by decide),
        lookupField_addIfPresent_ne _ _ _ _ (by decide),
        lookupField_addIfPresent_ne _ _ _ _ (by decide)]
      simp [lookupField]
    · rw [if_neg hce]
      rw [lookupField_dictInsert_ne _ _ _ _ (by decide),
        lookupField_addIfPresent_ne _ _ _ _ (by decide),
        lookupField_addIfPresent_ne _ _ _ _ (by decide),
        lookupField_addIfPresent_ne _ _ _ _ (by decide),
        lookupField_addIfPresent_ne _ _ _ _ (by decide)]
      simp [lookupField]

/-- The discovery step never changes the state of the snapshot. -/
theorem discovery_step_state (cfg : Config) (P : List String) (e : String)
    (snap : Snapshot) (cp : List Pub) (P2 : List String) (snap2 : Snapshot)
    (h : discovery_step cfg P e snap = Except.ok (cp, P2, snap2)) :
    snap2.state = snap.state := by
  by_cases hg : (cfg.publish_discovery && !(memStr P e)) = true
  · rw [discovery_step_go cfg P e snap hg] at h
    split at h
    · simp at h
    · rename_i c snap2' hbc
      simp only [Except.ok.injEq, Prod.mk.injEq] at h
      rw [← h.2.2]
      exact build_config_state cfg e snap _ _ hbc
    · rename_i snap2' hbc
      simp only [Except.ok.injEq, Prod.mk.injEq] at h
      rw [← h.2.2]
      exact build_config_state cfg e snap _ _ hbc
  · rw [discovery_step_skip cfg P e snap (by simpa using hg)] at h
    simp only [Except.ok.injEq, Prod.mk.injEq] at h
    rw [← h.2.2]

/-- Timestamp publishes vanish when the flag is off. -/
theorem tsPubs_off (cfg : Config) (base : String) (snap : Snapshot)
    (h : cfg.publish_timestamps = false) : tsPubs cfg base snap = [] := by
  unfold tsPubs
  rw [h]
  rfl

/-- Per-attribute publishes vanish when the flag is off. -/
theorem attrKeyPubs_off (cfg : Config) (base : String) (snap : Snapshot)
    (h : cfg.publish_attributes = false) : attrKeyPubs cfg base snap = [] := by
  unfold attrKeyPubs
  rw [h]
  rfl

/-- C6 amended: per notification with discovery enabled, a light cycle ends
with the state publish followed by the availability publish last, while every
other domain ends with state, then availability, then the attributes payload,
so for non-light domains the attributes payload follows availability. -/
theorem C6_amended (cfg : Config) (P : List String) (e : String) (snap : Snapshot)
    (ps : List Pub) (P2 : List String) (s2 : Option Snapshot)
    (hd : cfg.publish_discovery = true) (hf : cfg.publish_filter e = true)
    (h : state_publisher cfg P e (some snap) = Except.ok (ps, P2, s2)) :
    (entDomain e = "light" →
      ∃ pre fields, ps = pre ++ [⟨mybase cfg e ++ "state", JVal.obj fields, 1, true⟩,
        ⟨mybase cfg e ++ "availability",
          JVal.str (availability_payload snap.state), 1, true⟩])
    ∧ (entDomain e ≠ "light" →
      ∃ pre a, ps = pre ++ [⟨mybase cfg e ++ "state", stateVal snap.state, 1, true⟩,
        ⟨mybase cfg e ++ "availability",
          JVal.str (availability_payload snap.state), 1, true⟩,
        ⟨mybase cfg e ++ "attributes", JVal.obj a, 1, true⟩]) := by
  obtain ⟨cp, snap2, sp, hds, hps, hpse, hs2⟩ :=
    sp_some_inversion cfg P e snap ps P2 s2 hf h
  have hst : snap2.state = snap.state :=
    discovery_step_state cfg P e snap cp P2 snap2 hds
  constructor
  · intro hl
    obtain ⟨p, hpl, hspl⟩ := publish_step_light_inv cfg e snap2 sp hd hl hps
    refine ⟨tsPubs cfg (mybase cfg e) snap ++ attrKeyPubs cfg (mybase cfg e) snap
      ++ cp, p, ?_⟩
    rw [hpse, hspl, hst]
    try simp [List.append_assoc]
  · intro hl
    have heq := publish_step_other_eq cfg e snap2 hd hl
    rw [hps] at heq
    simp only [Except.ok.injEq] at heq
    refine ⟨tsPubs cfg (mybase cfg e) snap ++ attrKeyPubs cfg (mybase cfg e) snap
      ++ cp, snap2.attributes, ?_⟩
    rw [hpse, heq, hst]
    try simp [List.append_assoc]

/-- Witness for C6 amended at the concrete device_tracker cycle. -/
theorem C6_amended_witness :
    (entDomain "device_tracker.phone" = "light" →
      ∃ pre fields, pubsC6 = pre
        ++ [⟨mybase cfgA "device_tracker.phone" ++ "state", JVal.obj fields, 1, true⟩,
            ⟨mybase cfgA "device_tracker.phone" ++ "availability",
              JVal.str (availability_payload snapDT.state), 1, true⟩])
    ∧ (entDomain "device_tracker.phone" ≠ "light" →
      ∃ pre a, pubsC6 = pre
        ++ [⟨mybase cfgA "device_tracker.phone" ++ "state", stateVal snapDT.state, 1, true⟩,
            ⟨mybase cfgA "device_tracker.phone" ++ "availability",
              JVal.str (availability_payload snapDT.state), 1, true⟩,
            ⟨mybase cfgA "device_tracker.phone" ++ "attributes", JVal.obj a, 1, true⟩]) :=
  C6_amended cfgA [] "device_tracker.phone" snapDT pubsC6
    ["device_tracker.phone"] (some snapDT) rfl rfl rfl

/-- C7 amended: with discovery publishing disabled the cycle publishes the
timestamp publishes (when enabled), the per-attribute publishes (when
enabled) and then one bare state payload; with both extra flags off only the
bare state payload is published; the registry is untouched. -/
theorem C7_amended (cfg : Config) (P : List String) (e : String) (snap : Snapshot)
    (ps : List Pub) (P2 : List String) (s2 : Option Snapshot)
    (hd : cfg.publish_discovery = false) (hf : cfg.publish_filter e = true)
    (h : state_publisher cfg P e (some snap) = Except.ok (ps, P2, s2)) :
    ps = tsPubs cfg (mybase cfg e) snap ++ attrKeyPubs cfg (mybase cfg e) snap
        ++ [⟨mybase cfg e ++ "state", stateVal snap.state, 1, true⟩]
    ∧ (cfg.publish_timestamps = false → cfg.publish_attributes = false →
        ps = [⟨mybase cfg e ++ "state", stateVal snap.state, 1, true⟩])
    ∧ P2 = P := by
  obtain ⟨cp, snap2, sp, hds, hps, hpse, hs2⟩ :=
    sp_some_inversion cfg P e snap ps P2 s2 hf h
  rw [discovery_step_skip cfg P e snap (by rw [hd]; rfl)] at hds
  simp only [Except.ok.injEq, Prod.mk.injEq] at hds
  obtain ⟨hcp, hP, hsn⟩ := hds
  rw [← hsn] at hps
  have hbare := publish_step_nodisc cfg e snap hd
  rw [hps] at hbare
  simp only [Except.ok.injEq] at hbare
  refine ⟨?_, ?_, hP.symm⟩
  · rw [hpse, hbare, ← hcp]
    simp
  · intro hts hat
    rw [hpse, hbare, ← hcp, tsPubs_off cfg _ snap hts, attrKeyPubs_off cfg _ snap hat]
    simp

/-- Witness for C7 amended at the concrete no-discovery cycle. -/
theorem C7_amended_witness :
    [(⟨mybase cfgC "sensor.x" ++ "state", stateVal snapFoo.state, 1, true⟩ : Pub)]
      = tsPubs cfgC (mybase cfgC "sensor.x") snapFoo
        ++ attrKeyPubs cfgC (mybase cfgC "sensor.x") snapFoo
        ++ [⟨mybase cfgC "sensor.x" ++ "state", stateVal snapFoo.state, 1, true⟩]
    ∧ (cfgC.publish_timestamps = false → cfgC.publish_attributes = false →
        [(⟨mybase cfgC "sensor.x" ++ "state", stateVal snapFoo.state, 1, true⟩ : Pub)]
          = [⟨mybase cfgC "sensor.x" ++ "state", stateVal snapFoo.state, 1, true⟩])
    ∧ ([] : List String) = [] :=
  C7_amended cfgC [] "sensor.x" snapFoo
    [⟨mybase cfgC "sensor.x" ++ "state", stateVal snapFoo.state, 1, true⟩]
    [] (some snapFoo) rfl rfl rfl

/-- C8: every cycle that reaches the publish stage with discovery enabled
publishes an availability payload, and that payload is offline exactly when
the state is unavailable, unknown or null, online in every other case. -/
theorem C8_availability (cfg : Config) (P : List String) (e : String) (snap : Snapshot)
    (ps : List Pub) (P2 : List String) (s2 : Option Snapshot)
    (hd : cfg.publish_discovery = true) (hf : cfg.publish_filter e = true)
    (h : state_publisher cfg P e (some snap) = Except.ok (ps, P2, s2)) :
    (∃ pre post, ps = pre ++ ⟨mybase cfg e ++ "availability",
        JVal.str (availability_payload snap.state), 1, true⟩ :: post)
    ∧ (availability_payload snap.state = "offline"
        ↔ (snap.state = some "unavailable" ∨ snap.state = some "unknown"
            ∨ snap.state = none))
    ∧ (availability_payload snap.state = "online"
        ↔ ¬(snap.state = some "unavailable" ∨ snap.state = some "unknown"
            ∨ snap.state = none)) := by
  obtain ⟨cp, snap2, sp, hds, hps, hpse, hs2⟩ :=
    sp_some_inversion cfg P e snap ps P2 s2 hf h
  have hst : snap2.state = snap.state :=
    discovery_step_state cfg P e snap cp P2 snap2 hds
  obtain ⟨v, rest, hsp, hrest⟩ := publish_step_disc_shape cfg e snap2 sp hd hps
  refine ⟨⟨tsPubs cfg (mybase cfg e) snap ++ attrKeyPubs cfg (mybase cfg e) snap
    ++ cp ++ [⟨mybase cfg e ++ "state", v, 1, true⟩], rest, ?_⟩, ?_, ?_⟩
  · rw [hpse, hsp, hst]
    try simp [List.append_assoc]
  · by_cases hc : (snap.state = some "unavailable" ∨ snap.state = some "unknown"
      ∨ snap.state = none)
    · simp [availability_payload, hc]
    · simp only [availability_payload, if_neg hc]
      constructor
      · intro hcontra
        exact absurd hcontra (by decide)
      · intro hcontra
        exact absurd hcontra hc
  · by_cases hc : (snap.state = some "unavailable" ∨ snap.state = some "unknown"
      ∨ snap.state = none)
    · simp only [availability_payload, if_pos hc]
      constructor
      · intro hcontra
        exact absurd hcontra (by decide)
      · intro hcontra
        exact absurd hc hcontra
    · simp [availability_payload, hc]

/-- Witness for C8 at a concrete unavailable sensor cycle. -/
theorem C8_availability_witness :
    (∃ pre post, [(⟨"ha/sensor/unav/state", JVal.str "unavailable", 1, true⟩ : Pub),
        ⟨"ha/sensor/unav/availability", JVal.str "offline", 1, true⟩,
        ⟨"ha/sensor/unav/attributes", JVal.obj [], 1, true⟩]
      = pre ++ ⟨mybase cfgA "sensor.unav" ++ "availability",
          JVal.str (availability_payload snapUnavail.state), 1, true⟩ :: post)
    ∧ (availability_payload snapUnavail.state = "offline"
        ↔ (snapUnavail.state = some "unavailable" ∨ snapUnavail.state = some "unknown"
            ∨ snapUnavail.state = none))
    ∧ (availability_payload snapUnavail.state = "online"
        ↔ ¬(snapUnavail.state = some "unavailable" ∨ snapUnavail.state = some "unknown"
            ∨ snapUnavail.state = none)) :=
  C8_availability cfgA [] "sensor.unav" snapUnavail
    [⟨"ha/sensor/unav/state", JVal.str "unavailable", 1, true⟩,
     ⟨"ha/sensor/unav/availability", JVal.str "offline", 1, true⟩,
     ⟨"ha/sensor/unav/attributes", JVal.obj [], 1, true⟩]
    [] (some snapUnavail) rfl rfl rfl

/-- C10: a light cycle with discovery enabled publishes a JSON state payload
whose state field is ON exactly when the snapshot state is the on literal and
OFF otherwise, immediately followed by the availability payload derived from
the same snapshot state, so unavailable and unknown states report OFF while
availability reports offline. -/
theorem C10_light_state (cfg : Config) (P : List String) (e : String) (snap : Snapshot)
    (ps : List Pub) (P2 : List String) (s2 : Option Snapshot)
    (hd : cfg.publish_discovery = true) (hf : cfg.publish_filter e = true)
    (hl : entDomain e = "light")
    (h : state_publisher cfg P e (some snap) = Except.ok (ps, P2, s2)) :
    ∃ pre fields, ps = pre ++ [⟨mybase cfg e ++ "state", JVal.obj fields, 1, true⟩,
        ⟨mybase cfg e ++ "availability",
          JVal.str (availability_payload snap.state), 1, true⟩]
      ∧ lookupField "state" fields
        = some (JVal.str (if snap.state = some "on" then "ON" else "OFF"))
      ∧ ((if snap.state = some "on" then "ON" else "OFF") = "ON"
          ↔ snap.state = some "on") := by
  obtain ⟨cp, snap2, sp, hds, hps, hpse, hs2⟩ :=
    sp_some_inversion cfg P e snap ps P2 s2 hf h
  have hst : snap2.state = snap.state :=
    discovery_step_state cfg P e snap cp P2 snap2 hds
  obtain ⟨p, hpl, hspl⟩ := publish_step_light_inv cfg e snap2 sp hd hl hps
  have hlk := light_state_payload_state snap2 p hpl
  rw [hst] at hlk
  refine ⟨tsPubs cfg (mybase cfg e) snap ++ attrKeyPubs cfg (mybase cfg e) snap
    ++ cp, p, ?_, hlk, ?_⟩
  · rw [hpse, hspl, hst]
    try simp [List.append_assoc]
  · by_cases hon : snap.state = some "on"
    · simp [hon]
    · simp only [if_neg hon]
      constructor
      · intro hcontra
        exact absurd hcontra (by decide)
      · intro hcontra
        exact absurd hcontra hon

/-- Witness for C10 at a concrete unavailable light cycle. -/
theorem C10_light_state_witness :
    ∃ pre fields, [(⟨"ha/light/lamp/state",
        JVal.obj [("state", JVal.str "OFF")], 1, true⟩ : Pub),
        ⟨"ha/light/lamp/availability", JVal.str "offline", 1, true⟩]
      = pre ++ [⟨mybase cfgA "light.lamp" ++ "state", JVal.obj fields, 1, true⟩,
          ⟨mybase cfgA "light.lamp" ++ "availability",
            JVal.str (availability_payload snapUnavail.state), 1, true⟩]
      ∧ lookupField "state" fields
        = some (JVal.str (if snapUnavail.state = some "on" then "ON" else "OFF"))
      ∧ ((if snapUnavail.state = some "on" then "ON" else "OFF") = "ON"
          ↔ snapUnavail.state = some "on") :=
  C10_light_state cfgA ["light.lamp"] "light.lamp" snapUnavail
    [⟨"ha/light/lamp/state", JVal.obj [("state", JVal.str "OFF")], 1, true⟩,
     ⟨"ha/light/lamp/availability", JVal.str "offline", 1, true⟩]
    ["light.lamp"] (some snapUnavail) rfl rfl rfl rfl

/-- Equation for the state publisher on a null state: nothing happens. -/
theorem state_publisher_none (cfg : Config) (P : List String) (e : String) :
    state_publisher cfg P e none = Except.ok ([], P, none) := rfl

/-- Equation for the state publisher when the filter rejects the entity. -/
theorem state_publisher_filtered (cfg : Config) (P : List String) (e : String)
    (snap : Snapshot) (hf : cfg.publish_filter e = false) :
    state_publisher cfg P e (some snap) = Except.ok ([], P, some snap) := by
  unfold state_publisher
  rw [hf]
  rfl

/-- The registry after one cycle is unchanged or extended by exactly the
processed entity. -/
theorem step_registry (cfg : Config) (P : List String) (e : String)
    (s : Option Snapshot) (ps : List Pub) (P2 : List String) (s2 : Option Snapshot)
    (h : state_publisher cfg P e s = Except.ok (ps, P2, s2)) :
    P2 = P ∨ P2 = P ++ [e] := by
  cases s with
  | none =>
    rw [state_publisher_none] at h
    simp only [Except.ok.injEq, Prod.mk.injEq] at h
    exact Or.inl h.2.1.symm
  | some snap =>
    by_cases hf : cfg.publish_filter e = true
    · obtain ⟨cp, snap2, sp, hds, -, -, -⟩ :=
        sp_some_inversion cfg P e snap ps P2 s2 hf h
      rcases discovery_step_inv cfg P e snap cp P2 snap2 hds with
        ⟨-, hP⟩ | ⟨c, -, hP, -, -, -⟩
      · exact Or.inl hP
      · exact Or.inr hP
    · rw [state_publisher_filtered cfg P e snap (by simpa using hf)] at h
      simp only [Except.ok.injEq, Prod.mk.injEq] at h
      exact Or.inl h.2.1.symm

/-- Every publish of a cycle with the timestamp and attribute flags off is on
one of the four per-entity topics: state, availability, attributes, or the
discovery config topic; a config publish moreover requires that the entity
was not yet registered and that its snapshot is domain-eligible. -/
theorem step_topics (cfg : Config) (P : List String) (e : String)
    (s : Option Snapshot) (ps : List Pub) (P2 : List String) (s2 : Option Snapshot)
    (hts : cfg.publish_timestamps = false) (hat : cfg.publish_attributes = false)
    (h : state_publisher cfg P e s = Except.ok (ps, P2, s2)) :
    ∀ p ∈ ps, p.topic = mybase cfg e ++ "state"
      ∨ p.topic = mybase cfg e ++ "availability"
      ∨ p.topic = mybase cfg e ++ "attributes"
      ∨ (p.topic = confTopic cfg e ∧ memStr P e = false
          ∧ ∃ snap, s = some snap ∧ eligible cfg e snap = true) := by
  cases s with
  | none =>
    rw [state_publisher_none] at h
    simp only [Except.ok.injEq, Prod.mk.injEq] at h
    intro p hp
    rw [← h.1] at hp
    simp at hp
  | some snap =>
    by_cases hf : cfg.publish_filter e = true
    · obtain ⟨cp, snap2, sp, hds, hps, hpse, -⟩ :=
        sp_some_inversion cfg P e snap ps P2 s2 hf h
      rw [tsPubs_off cfg _ snap hts, attrKeyPubs_off cfg _ snap hat] at hpse
      simp only [List.nil_append] at hpse
      intro p hp
      rw [hpse] at hp
      rcases List.mem_append.mp hp with hcp | hsp
      · rcases discovery_step_inv cfg P e snap cp P2 snap2 hds with
          ⟨hnil, -⟩ | ⟨c, hceq, -, hmem, -, hel⟩
        · rw [hnil] at hcp
          simp at hcp
        · rw [hceq] at hcp
          simp only [List.mem_singleton] at hcp
          rw [hcp]
          exact Or.inr (Or.inr (Or.inr ⟨rfl, hmem, snap, rfl, hel⟩))
      · cases hdisc : cfg.publish_discovery with
        | false =>
          rw [publish_step_nodisc cfg e snap2 hdisc] at hps
          simp only [Except.ok.injEq] at hps
          rw [← hps] at hsp
          simp only [List.mem_singleton] at hsp
          rw [hsp]
          exact Or.inl rfl
        | true =>
          obtain ⟨v, rest, hspe, hrest⟩ :=
            publish_step_disc_shape cfg e snap2 sp hdisc hps
          rw [hspe] at hsp
          simp only [List.mem_cons] at hsp
          rcases hsp with h1 | h2 | h3
          · rw [h1]
            exact Or.inl rfl
          · rw [h2]
            exact Or.inr (Or.inl rfl)
          · rcases hrest with hre | hre
            · rw [hre] at h3
              simp at h3
            · rw [hre] at h3
              simp only [List.mem_singleton] at h3
              rw [h3]
              exact Or.inr (Or.inr (Or.inl rfl))
    · rw [state_publisher_filtered cfg P e snap (by simpa using hf)] at h
      simp only [Except.ok.injEq, Prod.mk.injEq] at h
      intro p hp
      rw [← h.1] at hp
      simp at hp

/-- Sensors and binary sensors without an active include filter and without
a device_class attribute are not eligible for a discovery config. -/
theorem eligible_sensor_false (cfg : Config) (e : String) (snap : Snapshot)
    (hinc : cfg.has_includes = false)
    (hdom : entDomain e = "sensor" ∨ entDomain e = "binary_sensor")
    (hdc : (lookupField "device_class" snap.attributes).isSome = false) :
    eligible cfg e snap = false := by
  unfold eligible
  rcases hdom with hd1 | hd1
  · rw [if_pos hd1, hinc, hdc]
    rfl
  · have hne : ¬ entDomain e = "sensor" := by
      rw [hd1]
      decide
    rw [if_neg hne, if_pos hd1, hinc, hdc]
    rfl

/-- Membership after appending one entry to the registry. -/
theorem memStr_append_one (P : List String) (a e : String) :
    memStr (P ++ [a]) e = (memStr P e || decide (a = e)) := by
  simp [memStr]

/-- Equation for running a cons trace given the outcome of its first step. -/
theorem run_trace_cons_eq (cfg : Config) (P : List String) (e : String)
    (s : Option Snapshot) (ps1 : List Pub) (P2 : List String) (s2 : Option Snapshot)
    (hsp : state_publisher cfg P e s = Except.ok (ps1, P2, s2))
    (rest : List (String × Option Snapshot)) :
    run_trace cfg P ((e, s) :: rest) =
      (match run_trace cfg P2 rest with
       | Except.error err => Except.error err
       | Except.ok (ps2, P3) => Except.ok (ps1 ++ ps2, P3)) := by
  conv_lhs => unfold run_trace
  rw [hsp]

/-- Inversion of a successful run of a cons trace. -/
theorem run_trace_cons_inv (cfg : Config) (P : List String) (e : String)
    (s : Option Snapshot) (rest : List (String × Option Snapshot))
    (ps : List Pub) (Pf : List String)
    (h : run_trace cfg P ((e, s) :: rest) = Except.ok (ps, Pf)) :
    ∃ ps1 P2 s2 ps2, state_publisher cfg P e s = Except.ok (ps1, P2, s2)
      ∧ run_trace cfg P2 rest = Except.ok (ps2, Pf)
      ∧ ps = ps1 ++ ps2 := by
  unfold run_trace at h
  split at h
  · simp at h
  · rename_i ps1 P2 s2 hsp
    split at h
    · simp at h
    · rename_i ps2 P3 hrt
      simp only [Except.ok.injEq, Prod.mk.injEq] at h
      exact ⟨ps1, P2, s2, ps2, hsp, h.2 ▸ hrt, h.1.symm⟩

/-- Inversion of a successful run of an appended trace. -/
theorem run_trace_append_inv (cfg : Config) :
    ∀ (xs ys : List (String × Option Snapshot)) (P : List String)
      (ps : List Pub) (Pf : List String),
    run_trace cfg P (xs ++ ys) = Except.ok (ps, Pf) →
    ∃ ps1 P1 ps2, run_trace cfg P xs = Except.ok (ps1, P1)
      ∧ run_trace cfg P1 ys = Except.ok (ps2, Pf)
      ∧ ps = ps1 ++ ps2 := by
  intro xs
  induction xs with
  | nil =>
    intro ys P ps Pf h
    exact ⟨[], P, ps, rfl, h, rfl⟩
  | cons hd tl ih =>
    intro ys P ps Pf h
    obtain ⟨e, s⟩ := hd
    rw [List.cons_append] at h
    obtain ⟨ps1, P2, s2, ps2, hsp, hrt, hcat⟩ :=
      run_trace_cons_inv cfg P e s (tl ++ ys) ps Pf h
    obtain ⟨psa, P1, psb, hxs, hys, hcat2⟩ := ih ys P2 ps2 Pf hrt
    refine ⟨ps1 ++ psa, P1, psb, ?_, hys, by rw [hcat, hcat2, List.append_assoc]⟩
    rw [run_trace_cons_eq cfg P e s ps1 P2 s2 hsp tl, hxs]

/-- A config topic never equals a state topic: the suffixes differ. -/
theorem conf_ne_state (cfg cfg2 : Config) (a b : String) :
    confTopic cfg a ≠ mybase cfg2 b ++ "state" := by
  unfold confTopic mybase
  exact append_ne_of_last_ne _ _ _ _ (by decide) (by decide) (by decide)

/-- A config topic never equals an availability topic. -/
theorem conf_ne_avail (cfg cfg2 : Config) (a b : String) :
    confTopic cfg a ≠ mybase cfg2 b ++ "availability" := by
  unfold confTopic mybase
  exact append_ne_of_last_ne _ _ _ _ (by decide) (by decide) (by decide)

/-- A config topic never equals an attributes topic. -/
theorem conf_ne_attrs (cfg cfg2 : Config) (a b : String) :
    confTopic cfg a ≠ mybase cfg2 b ++ "attributes" := by
  unfold confTopic mybase
  exact append_ne_of_last_ne _ _ _ _ (by decide) (by decide) (by decide)

/-- An availability topic never equals a state topic. -/
theorem avail_ne_state (cfg cfg2 : Config) (a b : String) :
    mybase cfg a ++ "availability" ≠ mybase cfg2 b ++ "state" :=
  append_ne_of_last_ne _ _ _ _ (by decide) (by decide) (by decide)

/-- An attributes topic never equals a state topic. -/
theorem attrs_ne_state (cfg cfg2 : Config) (a b : String) :
    mybase cfg a ++ "attributes" ≠ mybase cfg2 b ++ "state" :=
  append_ne_of_last_ne _ _ _ _ (by decide) (by decide) (by decide)

/-- Equal state topics come from equal topic roots. -/
theorem state_topic_cancel (cfg cfg2 : Config) (a b : String)
    (h : mybase cfg a ++ "state" = mybase cfg2 b ++ "state") :
    mybase cfg a = mybase cfg2 b :=
  str_append_right_cancel _ _ _ h

/-- Equation for running the empty trace. -/
theorem run_trace_nil (cfg : Config) (P : List String) :
    run_trace cfg P [] = Except.ok ([], P) := rfl

/-- No discovery config for an ineligible sensor entity is ever published, no
matter how many notifications arrive and whatever the starting registry, as
long as no notification of the trace for that entity carries a device_class
attribute and no other traced entity shares its config topic. -/
theorem trace_no_conf_sensor (cfg : Config) (e : String)
    (hts : cfg.publish_timestamps = false) (hat : cfg.publish_attributes = false)
    (hinc : cfg.has_includes = false)
    (hdom : entDomain e = "sensor" ∨ entDomain e = "binary_sensor") :
    ∀ (tr : List (String × Option Snapshot)) (P : List String)
      (ps : List Pub) (Pf : List String),
    (∀ q ∈ tr, confTopic cfg q.1 = confTopic cfg e → q.1 = e) →
    (∀ q ∈ tr, q.1 = e → lacksDeviceClass q.2 = true) →
    run_trace cfg P tr = Except.ok (ps, Pf) →
    ∀ p ∈ ps, p.topic ≠ confTopic cfg e := by
  intro tr
  induction tr with
  | nil =>
    intro P ps Pf _ _ h p hp
    rw [run_trace_nil] at h
    simp only [Except.ok.injEq, Prod.mk.injEq] at h
    rw [← h.1] at hp
    simp at hp
  | cons hd tl ih =>
    intro P ps Pf hinj hdc h
    obtain ⟨q1, q2⟩ := hd
    obtain ⟨ps1, P2, s2, ps2, hsp, hrt, hcat⟩ :=
      run_trace_cons_inv cfg P q1 q2 tl ps Pf h
    intro p hp
    rw [hcat] at hp
    rcases List.mem_append.mp hp with h1 | h2
    · rcases step_topics cfg P q1 q2 ps1 P2 s2 hts hat hsp p h1 with
        ht | ht | ht | ⟨ht, hmem, snap, hq2, hel⟩
      · rw [ht]
        exact Ne.symm (conf_ne_state cfg cfg e q1)
      · rw [ht]
        exact Ne.symm (conf_ne_avail cfg cfg e q1)
      · rw [ht]
        exact Ne.symm (conf_ne_attrs cfg cfg e q1)
      · rw [ht]
        intro hceq
        have hq1e : q1 = e := hinj (q1, q2) (by simp) hceq
        have hdc1 := hdc (q1, q2) (by simp) hq1e
        rw [hq2] at hdc1
        simp only [lacksDeviceClass, Bool.not_eq_true'] at hdc1
        rw [hq1e] at hel
        rw [eligible_sensor_false cfg e snap hinc hdom hdc1] at hel
        simp at hel
    · exact ih P2 ps2 Pf
        (fun q hq => hinj q (List.mem_cons_of_mem _ hq))
        (fun q hq => hdc q (List.mem_cons_of_mem _ hq)) hrt p h2

/-- C9: for a sensor or binary_sensor entity with no active include filter
whose notifications never carry a device_class attribute, no discovery config
is ever published for it over any whole trace starting from the empty
registry, regardless of how many notifications arrive. -/
theorem C9_no_sensor_config (cfg : Config) (e : String)
    (tr : List (String × Option Snapshot)) (ps : List Pub) (Pf : List String)
    (hts : cfg.publish_timestamps = false) (hat : cfg.publish_attributes = false)
    (hinc : cfg.has_includes = false)
    (hdom : entDomain e = "sensor" ∨ entDomain e = "binary_sensor")
    (hinj : ∀ q ∈ tr, confTopic cfg q.1 = confTopic cfg e → q.1 = e)
    (hdc : ∀ q ∈ tr, q.1 = e → lacksDeviceClass q.2 = true)
    (hrun : run_trace cfg [] tr = Except.ok (ps, Pf)) :
    ∀ p ∈ ps, p.topic ≠ confTopic cfg e :=
  trace_no_conf_sensor cfg e hts hat hinc hdom tr [] ps Pf hinj hdc hrun

/-- Witness for C9 on a concrete trace of two sensor notifications without
device_class and one unrelated switch notification: no publish of the whole
run uses the config topic of the sensor. -/
theorem C9_witness :
    psC9W.all (fun p => !(decide (p.topic = confTopic cfgA "sensor.temp"))) = true := by
  have h := C9_no_sensor_config cfgA "sensor.temp" traceC9W psC9W regC9W
    rfl rfl rfl (Or.inl rfl) (by decide) (by decide) rfl
  rw [List.all_eq_true]
  intro p hp
  simpa using h p hp

/-- Before an entity is first seen, a trace of other entities publishes
nothing on its config topic nor on its state topic, and does not change its
registry membership. -/
theorem trace_pre (cfg : Config) (e : String)
    (hts : cfg.publish_timestamps = false) (hat : cfg.publish_attributes = false) :
    ∀ (tr : List (String × Option Snapshot)) (P : List String)
      (ps : List Pub) (Pf : List String),
    (∀ q ∈ tr, q.1 ≠ e) →
    (∀ q ∈ tr, confTopic cfg q.1 = confTopic cfg e → q.1 = e) →
    (∀ q ∈ tr, mybase cfg q.1 = mybase cfg e → q.1 = e) →
    run_trace cfg P tr = Except.ok (ps, Pf) →
    (∀ p ∈ ps, p.topic ≠ confTopic cfg e ∧ p.topic ≠ mybase cfg e ++ "state")
    ∧ memStr Pf e = memStr P e := by
  intro tr
  induction tr with
  | nil =>
    intro P ps Pf _ _ _ h
    rw [run_trace_nil] at h
    simp only [Except.ok.injEq, Prod.mk.injEq] at h
    refine ⟨fun p hp => ?_, by rw [← h.2]⟩
    rw [← h.1] at hp
    simp at hp
  | cons hd tl ih =>
    intro P ps Pf hne hinjc hinjs h
    obtain ⟨q1, q2⟩ := hd
    obtain ⟨ps1, P2, s2, ps2, hsp, hrt, hcat⟩ :=
      run_trace_cons_inv cfg P q1 q2 tl ps Pf h
    have hq1ne : q1 ≠ e := hne (q1, q2) (by simp)
    obtain ⟨ihps, ihreg⟩ := ih P2 ps2 Pf
      (fun q hq => hne q (List.mem_cons_of_mem _ hq))
      (fun q hq => hinjc q (List.mem_cons_of_mem _ hq))
      (fun q hq => hinjs q (List.mem_cons_of_mem _ hq)) hrt
    constructor
    · intro p hp
      rw [hcat] at hp
      rcases List.mem_append.mp hp with h1 | h2
      · rcases step_topics cfg P q1 q2 ps1 P2 s2 hts hat hsp p h1 with
          ht | ht | ht | ⟨ht, -, -⟩
        · rw [ht]
          refine ⟨Ne.symm (conf_ne_state cfg cfg e q1), fun hcontra => ?_⟩
          exact hq1ne (hinjs (q1, q2) (by simp) (state_topic_cancel cfg cfg q1 e hcontra))
        · rw [ht]
          exact ⟨Ne.symm (conf_ne_avail cfg cfg e q1), avail_ne_state cfg cfg q1 e⟩
        · rw [ht]
          exact ⟨Ne.symm (conf_ne_attrs cfg cfg e q1), attrs_ne_state cfg cfg q1 e⟩
        · rw [ht]
          refine ⟨fun hcontra => hq1ne (hinjc (q1, q2) (by simp) hcontra),
            conf_ne_state cfg cfg q1 e⟩
      · exact ihps p h2
    · rw [ihreg]
      rcases step_registry cfg P q1 q2 ps1 P2 s2 hsp with hP | hP
      · rw [hP]
      · rw [hP, memStr_append_one]
        simp [hq1ne]

/-- After an entity is in the registry, no further notification of any entity
publishes on its config topic, provided no other traced entity shares that
topic. -/
theorem trace_post (cfg : Config) (e : String)
    (hts : cfg.publish_timestamps = false) (hat : cfg.publish_attributes = false) :
    ∀ (tr : List (String × Option Snapshot)) (P : List String)
      (ps : List Pub) (Pf : List String),
    (∀ q ∈ tr, confTopic cfg q.1 = confTopic cfg e → q.1 = e) →
    memStr P e = true →
    run_trace cfg P tr = Except.ok (ps, Pf) →
    ∀ p ∈ ps, p.topic ≠ confTopic cfg e := by
  intro tr
  induction tr with
  | nil =>
    intro P ps Pf _ _ h p hp
    rw [run_trace_nil] at h
    simp only [Except.ok.injEq, Prod.mk.injEq] at h
    rw [← h.1] at hp
    simp at hp
  | cons hd tl ih =>
    intro P ps Pf hinjc hmem h
    obtain ⟨q1, q2⟩ := hd
    obtain ⟨ps1, P2, s2, ps2, hsp, hrt, hcat⟩ :=
      run_trace_cons_inv cfg P q1 q2 tl ps Pf h
    have hmem2 : memStr P2 e = true := by
      rcases step_registry cfg P q1 q2 ps1 P2 s2 hsp with hP | hP
      · rw [hP, hmem]
      · rw [hP, memStr_append_one, hmem]
        rfl
    intro p hp
    rw [hcat] at hp
    rcases List.mem_append.mp hp with h1 | h2
    · rcases step_topics cfg P q1 q2 ps1 P2 s2 hts hat hsp p h1 with
        ht | ht | ht | ⟨ht, hnotmem, -⟩
      · rw [ht]
        exact Ne.symm (conf_ne_state cfg cfg e q1)
      · rw [ht]
        exact Ne.symm (conf_ne_avail cfg cfg e q1)
      · rw [ht]
        exact Ne.symm (conf_ne_attrs cfg cfg e q1)
      · rw [ht]
        intro hceq
        have hq1e : q1 = e := hinjc (q1, q2) (by simp) hceq
        rw [hq1e] at hnotmem
        rw [hmem] at hnotmem
        cases hnotmem
    · exact ih P2 ps2 Pf
        (fun q hq => hinjc q (List.mem_cons_of_mem _ hq)) hmem2 hrt p h2

/-- The first eligible, unregistered, filter-accepted notification of an
entity publishes its discovery config first, immediately followed by its
state publish, with only availability and attributes publishes after them,
and registers the entity. -/
theorem step_first_eligible (cfg : Config) (P : List String) (e : String)
    (snap : Snapshot) (ps : List Pub) (P2 : List String) (s2 : Option Snapshot)
    (hd : cfg.publish_discovery = true)
    (hts : cfg.publish_timestamps = false) (hat : cfg.publish_attributes = false)
    (hf : cfg.publish_filter e = true)
    (hmem : memStr P e = false)
    (hel : eligible cfg e snap = true)
    (h : state_publisher cfg P e (some snap) = Except.ok (ps, P2, s2)) :
    ∃ c st rest, ps = ⟨confTopic cfg e, JVal.obj c, 1, true⟩ :: st :: rest
      ∧ st.topic = mybase cfg e ++ "state"
      ∧ (∀ p ∈ rest, p.topic = mybase cfg e ++ "availability"
          ∨ p.topic = mybase cfg e ++ "attributes")
      ∧ P2 = P ++ [e] := by
  obtain ⟨cp, snap2, sp, hds, hps, hpse, -⟩ :=
    sp_some_inversion cfg P e snap ps P2 s2 hf h
  rw [tsPubs_off cfg _ snap hts, attrKeyPubs_off cfg _ snap hat] at hpse
  simp only [List.nil_append] at hpse
  rcases discovery_step_inv cfg P e snap cp P2 snap2 hds with
    ⟨hcpnil, hPP⟩ | ⟨c, hceq, hP2, -, -, -⟩
  · exfalso
    have hg : (cfg.publish_discovery && !(memStr P e)) = true := by
      rw [hd, hmem]
      rfl
    rw [discovery_step_go cfg P e snap hg] at hds
    cases hbc : build_config cfg e snap with
    | error err =>
      rw [hbc] at hds
      simp at hds
    | ok pr =>
      obtain ⟨o, snap2'⟩ := pr
      rw [hbc] at hds
      cases o with
      | none =>
        have hiso := (build_config_inv cfg e snap none snap2' hbc).2
        rw [hel] at hiso
        simp at hiso
      | some c =>
        simp only [Except.ok.injEq, Prod.mk.injEq] at hds
        rw [← hds.1] at hcpnil
        simp at hcpnil
  · obtain ⟨v, rest0, hspe, hrest⟩ :=
      publish_step_disc_shape cfg e snap2 sp hd hps
    refine ⟨c, ⟨mybase cfg e ++ "state", v, 1, true⟩,
      ⟨mybase cfg e ++ "availability",
        JVal.str (availability_payload snap2.state), 1, true⟩ :: rest0,
      ?_, rfl, ?_, hP2⟩
    · rw [hpse, hceq, hspe]
      rfl
    · intro p hp
      rcases List.mem_cons.mp hp with h1 | h2
      · rw [h1]
        exact Or.inl rfl
      · rcases hrest with hre | hre
        · rw [hre] at h2
          simp at h2
        · rw [hre] at h2
          simp only [List.mem_singleton] at h2
          rw [h2]
          exact Or.inr rfl

/-- C1: over any whole trace from startup, an entity whose first notification
arrives with discovery enabled, accepted by the filter and domain-eligible
gets exactly one discovery-config publish; it happens immediately before its
first state publish, and no publish before or after it ever uses its config
topic again. -/
theorem C1_discovery_once (cfg : Config) (e : String) (snap0 : Snapshot)
    (pre post : List (String × Option Snapshot))
    (ps : List Pub) (Pf : List String)
    (hd : cfg.publish_discovery = true)
    (hts : cfg.publish_timestamps = false) (hat : cfg.publish_attributes = false)
    (hf : cfg.publish_filter e = true)
    (hel : eligible cfg e snap0 = true)
    (hpre : ∀ q ∈ pre, q.1 ≠ e)
    (hinjc : ∀ q ∈ pre ++ (e, some snap0) :: post,
      confTopic cfg q.1 = confTopic cfg e → q.1 = e)
    (hinjs : ∀ q ∈ pre, mybase cfg q.1 = mybase cfg e → q.1 = e)
    (hrun : run_trace cfg [] (pre ++ (e, some snap0) :: post) = Except.ok (ps, Pf)) :
    ∃ A c st B, ps = A ++ ⟨confTopic cfg e, JVal.obj c, 1, true⟩ :: st :: B
      ∧ st.topic = mybase cfg e ++ "state"
      ∧ (∀ p ∈ A, p.topic ≠ confTopic cfg e ∧ p.topic ≠ mybase cfg e ++ "state")
      ∧ (∀ p ∈ B, p.topic ≠ confTopic cfg e) := by
  obtain ⟨ps1, P1, ps2, hxs, hys, hcat⟩ :=
    run_trace_append_inv cfg pre ((e, some snap0) :: post) [] ps Pf hrun
  obtain ⟨ihps, ihreg⟩ := trace_pre cfg e hts hat pre [] ps1 P1 hpre
    (fun q hq => hinjc q (List.mem_append_left _ hq)) hinjs hxs
  have hmem1 : memStr P1 e = false := ihreg
  obtain ⟨psm, P2, s2, psr, hsp, hrt, hcat2⟩ :=
    run_trace_cons_inv cfg P1 e (some snap0) post ps2 Pf hys
  obtain ⟨c, st, rest, hpsm, hstt, hresttop, hP2⟩ :=
    step_first_eligible cfg P1 e snap0 psm P2 s2 hd hts hat hf hmem1 hel hsp
  have hmem2 : memStr P2 e = true := by
    rw [hP2, memStr_append_one]
    simp
  have hpost := trace_post cfg e hts hat post P2 psr Pf
    (fun q hq => hinjc q (List.mem_append_right _ (List.mem_cons_of_mem _ hq)))
    hmem2 hrt
  refine ⟨ps1, c, st, rest ++ psr, ?_, hstt, ihps, ?_⟩
  · rw [hcat, hcat2, hpsm]
    simp
  · intro p hp
    rcases List.mem_append.mp hp with h1 | h2
    · rcases hresttop p h1 with ht | ht
      · rw [ht]
        exact Ne.symm (conf_ne_avail cfg cfg e e)
      · rw [ht]
        exact Ne.symm (conf_ne_attrs cfg cfg e e)
    · exact hpost p h2

/-- Witness for C1 on a concrete trace whose first notification is an
eligible sensor, followed by a repeat of it and an unrelated switch. -/
theorem C1_witness :
    ∃ A c st B, psC1W
        = A ++ ⟨confTopic cfgA "sensor.temp", JVal.obj c, 1, true⟩ :: st :: B
      ∧ st.topic = mybase cfgA "sensor.temp" ++ "state"
      ∧ (∀ p ∈ A, p.topic ≠ confTopic cfgA "sensor.temp"
          ∧ p.topic ≠ mybase cfgA "sensor.temp" ++ "state")
      ∧ (∀ p ∈ B, p.topic ≠ confTopic cfgA "sensor.temp") :=
  C1_discovery_once cfgA "sensor.temp" snapDev []
    [("sensor.temp", some snapDev), ("switch.sw", some snapSw)]
    psC1W regC1W rfl rfl rfl rfl rfl
    (by simp) (by decide) (by simp) rfl

end MqttDS
